import Mathlib

/-!
# Formal model of the `mijnbib` scraping library

This file is a shallow embedding, in Lean 4, of the parsing and orchestration
logic of the `mijnbib` Python package (src/mijnbib/parsers.py,
src/mijnbib/mijnbibliotheek.py, src/mijnbib/login_handlers.py,
src/mijnbib/models.py, src/mijnbib/errors.py).

Modelling conventions:

* HTML documents are represented *after* parsing (`BeautifulSoup(html, "html.parser")`)
  as a forest of `Node` values (element nodes with decoded attribute values, and
  text nodes).  The BeautifulSoup search primitives used by the source
  (`find`, `find_all`, tag attribute access, `get_text`, `.string`) are modelled
  as functions on this tree.
* Python exceptions are modelled with `Except PyErr`; a `try/except AttributeError`
  block in the source becomes an explicit `match` whose fall-back branch is the
  `except` handler.  Exceptions that a handler does not catch propagate as
  `.error` values.
* Python `str` helpers used by the source (`strip`, `split`, `replace`, `in`,
  `lower`, `isdigit`) are implemented character-by-character so that every
  definition evaluates inside the kernel.
* `datetime.strptime(s, "%d/%m/%Y").date()` is modelled by `strptimeDMY`,
  including the calendar validation performed by CPython.
-/

namespace Mijnbib

/-! ## Python string primitives (modelled character by character) -/

/-- The characters stripped by Python's `str.strip()` (ASCII whitespace;
the unicode whitespace cases do not occur in the modelled pages). -/
def isPyWs (c : Char) : Bool :=
  c = ' ' || c = '\t' || c = '\n' || c = '\r' || c = '\x0b' || c = '\x0c'

/-- Strip the characters satisfying `p` from both ends of a char list. -/
def stripCharsBy (p : Char → Bool) (l : List Char) : List Char :=
  ((l.dropWhile p).reverse.dropWhile p).reverse

/-- Python `str.strip()`. -/
def pyStrip (s : String) : String := ⟨stripCharsBy isPyWs s.data⟩

/-- Python `str.strip(chars)` for a given set of characters. -/
def pyStripSet (s : String) (cs : List Char) : String :=
  ⟨stripCharsBy (fun c => cs.contains c) s.data⟩

/-- `pat.isPrefixOf hay` on char lists. -/
def isPrefixList : List Char → List Char → Bool
  | [], _ => true
  | _ :: _, [] => false
  | p :: ps, h :: hs => p = h && isPrefixList ps hs

/-- Substring containment on char lists (Python's `pat in hay`). -/
def containsSubList (pat : List Char) : List Char → Bool
  | [] => isPrefixList pat []
  | c :: rest => isPrefixList pat (c :: rest) || containsSubList pat rest

/-- Python's `sub in s`. -/
def pyContains (s sub : String) : Bool := containsSubList sub.data s.data

/-- Helper for `pySplitOn`: fuel-driven scan (fuel bounds the input length,
the separator is non-empty at every call site, so fuel never runs out). -/
def splitOnAux (sep : List Char) : Nat → List Char → List Char → List (List Char)
  | _, [], acc => [acc.reverse]
  | 0, l, acc => [acc.reverse ++ l]
  | fuel + 1, c :: rest, acc =>
    if isPrefixList sep (c :: rest) then
      acc.reverse :: splitOnAux sep fuel ((c :: rest).drop sep.length) []
    else
      splitOnAux sep fuel rest (c :: acc)

/-- Python `s.split(sep)` for a non-empty separator. -/
def pySplitOn (s sep : String) : List String :=
  (splitOnAux sep.data (s.data.length + 1) s.data []).map (⟨·⟩)

/-- Helper for `pyWsSplit`: whitespace-run splitting. -/
def wsSplitAux : List Char → List Char → List (List Char)
  | [], acc => if acc.isEmpty then [] else [acc.reverse]
  | c :: rest, acc =>
    if isPyWs c then
      if acc.isEmpty then wsSplitAux rest [] else acc.reverse :: wsSplitAux rest []
    else
      wsSplitAux rest (c :: acc)

/-- Python `s.split()` (split on whitespace runs, discarding empty pieces). -/
def pyWsSplit (s : String) : List String :=
  (wsSplitAux s.data []).map (⟨·⟩)

/-- Helper for `pyReplace`: fuel-driven scan, as in `splitOnAux`. -/
def replaceAux (pat rep : List Char) : Nat → List Char → List Char
  | _, [] => []
  | 0, l => l
  | fuel + 1, c :: rest =>
    if isPrefixList pat (c :: rest) then
      rep ++ replaceAux pat rep fuel ((c :: rest).drop pat.length)
    else
      c :: replaceAux pat rep fuel rest

/-- Python `s.replace(pat, rep)` for a non-empty pattern. -/
def pyReplace (s pat rep : String) : String :=
  ⟨replaceAux pat.data rep.data (s.data.length + 1) s.data⟩

/-- Python `s.lower()` (ASCII case folding suffices for the modelled pages). -/
def pyLower (s : String) : String := ⟨s.data.map Char.toLower⟩

/-- Python `s.isdigit()` (restricted to ASCII digits, as in the modelled pages). -/
def pyIsDigit (s : String) : Bool :=
  !s.data.isEmpty && s.data.all Char.isDigit

/-- Value of a string of ASCII digits. -/
def digitsToNat (l : List Char) : Nat :=
  l.foldl (fun n c => n * 10 + (c.toNat - '0'.toNat)) 0

/-- Python `int(s)` for strings known to satisfy `isdigit`. -/
def pyIntOfDigits (s : String) : Nat := digitsToNat s.data

/-- Python `lst[-1]` on a non-empty list (used on `split` results, which are
always non-empty). -/
def pyLast (l : List String) : String := l.getLastD ""

/-- Decidable equality on `Except`, so that concrete runs of the fallible
parsers can be settled by `decide`. -/
instance {ε α : Type} [DecidableEq ε] [DecidableEq α] : DecidableEq (Except ε α) := fun a b =>
  match a, b with
  | .ok x, .ok y =>
    if h : x = y then .isTrue (by rw [h])
    else .isFalse (by intro hc; injection hc; contradiction)
  | .error x, .error y =>
    if h : x = y then .isTrue (by rw [h])
    else .isFalse (by intro hc; injection hc; contradiction)
  | .ok _, .error _ => .isFalse (by intro hc; injection hc)
  | .error _, .ok _ => .isFalse (by intro hc; injection hc)

/-! ## The HTML document model

A `Node` is one node of the tree produced by `BeautifulSoup(html, "html.parser")`:
either an element (tag name, decoded attribute list, children) or a text node.
A parsed document (the "soup") is the list of its top-level nodes. -/

inductive Node where
  | elem (tag : String) (attrs : List (String × String)) (children : List Node)
  | text (s : String)
  deriving Repr

abbrev Doc := List Node

namespace Node

/-- Attribute lookup, `tag.get(name)` in BeautifulSoup (first binding wins). -/
def attrGet : Node → String → Option String
  | .elem _ attrs _, k => (attrs.find? (fun p => p.1 == k)).map (·.2)
  | .text _, _ => none

/-- The element children of a node; `tag.find_all(recursive=False)` returns
exactly these (text children are not returned by `find_all`). -/
def elemChildren : Node → List Node
  | .elem _ _ cs => cs.filter (fun c => match c with | .elem _ _ _ => true | .text _ => false)
  | .text _ => []

/-- The direct text-node children of a node, as strings
(`tag.find(string=True, recursive=False)` returns the head of this list). -/
def textChildren : Node → List String
  | .elem _ _ cs => cs.filterMap (fun c => match c with | .text s => some s | _ => none)
  | .text _ => []

end Node

mutual
/-- `tag.get_text()`: all text beneath a node, concatenated in document order. -/
def getText : Node → String
  | .text s => s
  | .elem _ _ cs => getTextList cs
/-- `get_text` over a list of sibling nodes. -/
def getTextList : List Node → String
  | [] => ""
  | n :: ns => getText n ++ getTextList ns
end

mutual
/-- Search the descendants of one node, in document (pre-)order, for the first
node satisfying `p` (the node itself is not considered, as in BeautifulSoup's
`tag.find`). -/
def findDesc (p : Node → Bool) : Node → Option Node
  | .text _ => none
  | .elem _ _ cs => findList p cs
/-- Search a forest, in document order, for the first node satisfying `p`.
Each root is itself a candidate.  `soup.find(...)` is `findList p soup`. -/
def findList (p : Node → Bool) : List Node → Option Node
  | [] => none
  | n :: ns =>
    if p n then some n
    else match findDesc p n with
      | some r => some r
      | none => findList p ns
end

mutual
/-- All descendants of a node satisfying `p`, in document order
(`tag.find_all(...)`). -/
def findAllDesc (p : Node → Bool) : Node → List Node
  | .text _ => []
  | .elem _ _ cs => findAllList p cs
/-- All nodes of a forest satisfying `p`, in document order
(`soup.find_all(...)`). -/
def findAllList (p : Node → Bool) : List Node → List Node
  | [] => []
  | n :: ns =>
    (if p n then [n] else []) ++ findAllDesc p n ++ findAllList p ns
end

/-- `tag.string`: the single string beneath a tag — present when the tag has
exactly one child which is a text node, or a single-child chain ending in one. -/
def stringOf : Node → Option String
  | .text s => some s
  | .elem _ _ [c] => stringOf c
  | .elem _ _ _ => none

/-- BeautifulSoup `class_="f"` matching against a `class` attribute value `v`:
the filter matches one of the whitespace-separated classes, or the full
attribute string. -/
def classMatch (f v : String) : Bool :=
  (pyWsSplit v).contains f || f == v

/-- Predicate for `find(tag, class_=cls)`: an element with the given tag name
whose `class` attribute matches `cls` (a tag without `class` never matches). -/
def isTagClass (tag cls : String) (n : Node) : Bool :=
  match n with
  | .elem t attrs _ =>
    t == tag &&
      (match (attrs.find? (fun p => p.1 == "class")).map (·.2) with
       | some v => classMatch cls v
       | none => false)
  | .text _ => false

/-- Predicate for `find(tag)` / attribute access like `tag.a`, `tag.input`. -/
def isTag (tag : String) (n : Node) : Bool :=
  match n with
  | .elem t _ _ => t == tag
  | .text _ => false

/-- First descendant with the given tag name (`tag.a`, `tag.input`, `tag.em`:
attribute-style access is `find` on the tag name). -/
def firstDescTag (tag : String) (n : Node) : Option Node :=
  findDesc (isTag tag) n

/-- Predicate for `find(string=re.compile(pat))` where `pat` is a literal
message: a text node containing the message.  (The `.` characters of the
literal are regex wildcards; on the pages modelled here the literal itself
occurs, so containment of the literal is the right model.) -/
def isTextContaining (sub : String) (n : Node) : Bool :=
  match n with
  | .text s => pyContains s sub
  | .elem _ _ _ => false

/-- Predicate for `find(tag, string=re.compile(pat))`: an element with the
given tag name whose `.string` exists and contains `pat`. -/
def isTagWithStringContaining (tag sub : String) (n : Node) : Bool :=
  match n with
  | .elem t _ _ =>
    t == tag &&
      (match stringOf n with
       | some s => pyContains s sub
       | none => false)
  | .text _ => false

/-- Predicate for `find("a", href=re.compile(pat))` with a literal `pat`:
an anchor whose `href` attribute is present and contains `pat`. -/
def isAnchorHrefContaining (sub : String) (n : Node) : Bool :=
  match n with
  | .elem t attrs _ =>
    t == "a" &&
      (match (attrs.find? (fun p => p.1 == "href")).map (·.2) with
       | some h => pyContains h sub
       | none => false)
  | .text _ => false

/-! ## Dates (`datetime.strptime(s, "%d/%m/%Y").date()`) -/

/-- A `datetime.date` value. -/
structure PyDate where
  year : Nat
  month : Nat
  day : Nat
  deriving DecidableEq, Repr

/-- Gregorian leap-year rule (as used by `datetime`). -/
def isLeapYear (y : Nat) : Bool :=
  y % 4 == 0 && (y % 100 != 0 || y % 400 == 0)

/-- Days in a month. -/
def daysInMonth (y m : Nat) : Nat :=
  if m == 2 then (if isLeapYear y then 29 else 28)
  else if m == 4 || m == 6 || m == 9 || m == 11 then 30
  else 31

/-- Match the `%d`/`%m` directives of `strptime`: one or two ASCII digits whose
value lies in `[lo, hi]`. -/
def matchNumField (lo hi : Nat) (s : String) : Option Nat :=
  let l := s.data
  if l.length == 1 || l.length == 2 then
    if l.all Char.isDigit then
      let v := digitsToNat l
      if lo ≤ v && v ≤ hi then some v else none
    else none
  else none

/-- Match the `%Y` directive: exactly four ASCII digits, year at least
`datetime.MINYEAR = 1`. -/
def matchYearField (s : String) : Option Nat :=
  let l := s.data
  if l.length == 4 && l.all Char.isDigit then
    let v := digitsToNat l
    if 1 ≤ v then some v else none
  else none

/-- `datetime.strptime(s, "%d/%m/%Y").date()`.  `none` models the
`ValueError` raised on a mismatch (including `datetime`'s calendar check). -/
def strptimeDMY (s : String) : Option PyDate :=
  match pySplitOn s "/" with
  | [ds, ms, ys] =>
    match matchNumField 1 31 ds, matchNumField 1 12 ms, matchYearField ys with
    | some d, some m, some y =>
      if d ≤ daysInMonth y m then some ⟨y, m, d⟩ else none
    | _, _, _ => none
  | _ => none

/-! ## Python exceptions and the library's error classes

One inductive covers both built-in exceptions and the exception classes of
`errors.py` / `plugin_errors.py` that the modelled code can raise.
`IncompatibleSourceError` carries its `html_body` argument. -/

inductive PyErr where
  | attributeError
  | typeError
  | keyError (key : String)
  | indexError
  | valueError
  | assertionError
  | incompatibleSource (msg htmlBody : String)
  | temporarySite (msg : String)
  | authenticationError (msg : String)
  deriving DecidableEq, Repr

/-- Models Python's `str(e)` as used in wrapped error messages.  The precise
rendering is not load-bearing for any property below. -/
def pyStr : PyErr → String
  | .attributeError => "AttributeError"
  | .typeError => "'NoneType' object is not subscriptable"
  | .keyError k => k
  | .indexError => "list index out of range"
  | .valueError => "ValueError"
  | .assertionError => "AssertionError"
  | .incompatibleSource m _ => m
  | .temporarySite m => m
  | .authenticationError m => m

/-- The `html_body` attribute of an `IncompatibleSourceError` ( `""` otherwise). -/
def PyErr.htmlBodyOf : PyErr → String
  | .incompatibleSource _ b => b
  | _ => ""

/-! ## `urllib.parse.urljoin` (modelled for http(s)/path-style URLs)

The source joins a page's base URL (`https://city.bibliotheek.be` or a test
value) with an anchor `href` that is either absolute, network-relative (`//`),
host-relative (`/...`), relative, or empty.  The model below implements
`urljoin` for exactly these shapes (no `..`/`.` segment resolution, which the
modelled pages never use). -/

/-- First index at which `pat` occurs in `hay`. -/
def firstIndexOfSub (pat : List Char) : List Char → Option Nat
  | [] => if pat.isEmpty then some 0 else none
  | c :: rest =>
    if isPrefixList pat (c :: rest) then some 0
    else (firstIndexOfSub pat rest).map (· + 1)

/-- `s.startswith(pre)`. -/
def strStarts (s pre : String) : Bool := isPrefixList pre.data s.data

/-- The scheme of a URL (text before `://`), or `""`. -/
def schemeOf (u : String) : String :=
  match firstIndexOfSub "://".data u.data with
  | some i => ⟨u.data.take i⟩
  | none => ""

/-- `scheme://netloc` of a URL (everything up to the path), or `""` when the
URL has no `://`. -/
def schemeNetloc (u : String) : String :=
  match firstIndexOfSub "://".data u.data with
  | some i =>
    let after := u.data.drop (i + 3)
    match firstIndexOfSub "/".data after with
    | some j => ⟨u.data.take (i + 3 + j)⟩
    | none => u
  | none => ""

/-- The directory part of a path, up to and including the last `/` (or `""`). -/
def dirPart (p : String) : String :=
  ⟨(((p.data.reverse).dropWhile (fun c => c ≠ '/'))).reverse⟩

/-- `urllib.parse.urljoin(base, url)` for the URL shapes described above. -/
def urljoin (base url : String) : String :=
  if url == "" then base
  else if pyContains url "://" then url
  else if strStarts url "//" then schemeOf base ++ ":" ++ url
  else if strStarts url "/" then schemeNetloc base ++ url
  else
    let pre := schemeNetloc base
    let path : String := ⟨base.data.drop pre.data.length⟩
    if path == "" then pre ++ "/" ++ url
    else pre ++ dirPart path ++ url

/-! ## The dataclasses (`models.py`, and the older copies in `mijnbibliotheek.py`)

Python's dataclass fields are dynamically typed: the parser can in fact store
`None` in `extend_id` (via `input.get("id")`), so that field is modelled as
`Option String` with `some ""` for the declared default `""`. -/

/-- `models.Loan` (the dataclass used by `parsers.LoansListPageParser`). -/
structure Loan where
  title : String := ""
  loan_from : Option PyDate := none
  loan_till : Option PyDate := none
  author : String := ""
  type : String := ""
  extendable : Option Bool := none
  extend_url : String := ""
  extend_id : Option String := some ""
  branchname : String := ""
  id : String := ""
  url : String := ""
  cover_url : String := ""
  account_id : String := ""
  deriving DecidableEq, Repr

/-- The older `Loan` dataclass defined at the bottom of `mijnbibliotheek.py`
(identical to `models.Loan` except that it has no `account_id` field). -/
structure LoanOld where
  title : String := ""
  loan_from : Option PyDate := none
  loan_till : Option PyDate := none
  author : String := ""
  type : String := ""
  extendable : Option Bool := none
  extend_url : String := ""
  extend_id : Option String := some ""
  branchname : String := ""
  id : String := ""
  url : String := ""
  cover_url : String := ""
  deriving DecidableEq, Repr

/-- `models.Reservation` (same fields as the older copy in
`mijnbibliotheek.py`). -/
structure Reservation where
  title : String
  type : String
  url : String
  author : String
  location : String
  available : Bool
  available_till : Option PyDate := none
  request_on : Option PyDate := none
  valid_till : Option PyDate := none
  deriving DecidableEq, Repr

/-- `models.Account` (same fields as the older copy in `mijnbibliotheek.py`).
Counts come from `int(s)` on `isdigit` strings, hence `Option Nat`;
`open_amounts` is a Python float parsed from a decimal string, modelled
exactly as a rational. -/
structure Account where
  library_name : String
  user : String
  id : String
  loans_count : Option Nat
  loans_url : String
  reservations_count : Option Nat
  reservations_url : String
  open_amounts : Rat
  open_amounts_url : String
  deriving DecidableEq, Repr

/-! ## Loan-card field extraction

`parsers.LoansListPageParser._get_loan_info_from_div` and
`MijnBibliotheek._get_loan_info_from_div` (mijnbibliotheek.py) have textually
identical bodies apart from the `account_id` field of the produced dataclass,
so the per-field sub-extractions are shared below and each caller assembles
its own record.  Each sub-extraction mirrors one `try/except AttributeError`
block of the source; errors other than `AttributeError` propagate. -/

namespace LoanDiv

/-- The title/url/id block.  `find("h3", class_=...)` returning `None` makes
`None.a` raise `AttributeError` (caught: fields left unset); an `<h3>` without
an anchor makes `loan_a.get_text()` raise `AttributeError` (caught); an anchor
without `href` raises an uncaught `KeyError`.  The item id is the last
`%7C`-separated piece of the href (byte-level split in the source, which for
this ASCII separator equals the string split). -/
def titleUrlId (div : Node) : Except PyErr (Option (String × String × String)) :=
  match findDesc (isTagClass "h3" "my-library-user-library-account-loans__loan-title card--title") div with
  | none => .ok none
  | some h3 =>
    match firstDescTag "a" h3 with
    | none => .ok none
    | some a =>
      let title := pyStrip (getText a)
      match a.attrGet "href" with
      | none => .error (.keyError "href")
      | some href => .ok (some (title, href, pyLast (pySplitOn href "%7C")))

/-- The author block; a missing `div.author` raises `AttributeError`, caught
with default `""`. -/
def authorOf (div : Node) : String :=
  match findDesc (isTagClass "div" "author") div with
  | none => ""
  | some d => pyStrip (getText d)

/-- The type-label block; missing label caught with default `""`. -/
def typeOf (div : Node) : String :=
  match findDesc (isTagClass "div" "my-library-user-library-account-loans__loan-type-label") div with
  | none => ""
  | some d => pyStrip (getText d)

/-- The cover block: `find("img", ...)["src"]`.  A missing `<img>` yields
`None["src"]`, a `TypeError`, which the `except AttributeError` does NOT
catch; an `<img>` without `src` raises `KeyError`.  Both propagate. -/
def coverOf (div : Node) : Except PyErr String :=
  match findDesc (isTagClass "img" "my-library-user-library-account-loans__loan-cover-img") div with
  | none => .error .typeError
  | some img =>
    match img.attrGet "src" with
    | none => .error (.keyError "src")
    | some s => .ok s

/-- The from/to block: a missing wrapper div raises `AttributeError` (caught:
dates left unset); missing spans raise uncaught `IndexError`; malformed dates
raise uncaught `ValueError` from `strptime`. -/
def fromToOf (div : Node) : Except PyErr (Option (PyDate × PyDate)) :=
  match findDesc (isTagClass "div" "my-library-user-library-account-loans__loan-from-to") div with
  | none => .ok none
  | some d =>
    let spans := findAllDesc (isTag "span") d
    match spans.get? 1 with
    | none => .error .indexError
    | some s1 =>
      match spans.get? 3 with
      | none => .error .indexError
      | some s3 =>
        let from_ := pyStrip (getText s1)
        let till_ := pyStrip (getText s3)
        match strptimeDMY from_ with
        | none => .error .valueError
        | some dFrom =>
          match strptimeDMY till_ with
          | none => .error .valueError
          | some dTill => .ok (some (dFrom, dTill))

/-- The extend block (the tuple is `(extendable, extend_url, extend_id)`,
with the dataclass defaults already applied for the keys the source leaves
unset).  Branches, in source order:
* no `card--extend-loan` div: `None.get_text()` raises `AttributeError`,
  caught — `(None, "", "")`;
* text equal to `"Verlengen niet mogelijk"`: `(False, unset, unset)`;
* otherwise `extendable = True` is stored, then `extend_loan_div.a["href"]`:
  a missing anchor is `None["href"]`, an uncaught `TypeError`; an anchor
  without `href` an uncaught `KeyError`;
* then `extend_loan_div.input.get("id")`: a missing `<input>` is
  `None.get(...)`, an `AttributeError`, caught — the handler resets all three
  fields to `(None, "", "")`;
* an `<input>` without `id` stores Python `None` in `extend_id`. -/
def extendOf (baseUrl : String) (div : Node) : Except PyErr (Option Bool × String × Option String) :=
  match findDesc (isTagClass "div" "card--extend-loan") div with
  | none => .ok (none, "", some "")
  | some d =>
    if pyStrip (getText d) == "Verlengen niet mogelijk" then
      .ok (some false, "", some "")
    else
      match firstDescTag "a" d with
      | none => .error .typeError
      | some a =>
        match a.attrGet "href" with
        | none => .error (.keyError "href")
        | some href =>
          let exUrl := urljoin baseUrl href
          match firstDescTag "input" d with
          | none => .ok (none, "", some "")
          | some inp => .ok (some true, exUrl, inp.attrGet "id")

end LoanDiv

/-! ## `parsers.LoansListPageParser` -/

namespace LoansListPageParser

/-- The "service temporarily unavailable" banner text of `parsers.py`
(two adjacent string literals, concatenated by Python). -/
def bannerMsg : String :=
  "Er is een fout opgetreden bij het ophalen van informatie uit het " ++
    "bibliotheeksysteem. Probeer het later opnieuw."

/-- `soup.find(string=re.compile(error_msg)) is not None`: the banner check
performed when the loan wrapper is absent (it only controls a log message). -/
def bannerPresent (doc : Doc) : Bool :=
  (findList (isTextContaining bannerMsg) doc).isSome

/-- The `soup.find("div", class_="...loan-wrapper")` lookup opening `parse`. -/
def findLoanWrapper (doc : Doc) : Option Node :=
  findList (isTagClass "div" "my-library-user-library-account-loans__loan-wrapper") doc

/-- `_get_loan_info_from_div(loan_div_html, branch)` of `parsers.py`:
assembles a `models.Loan`, with `account_id` from the parser instance.
(The source round-trips the child through `str`/`BeautifulSoup`, which is the
identity on the tree.) -/
def getLoanInfoFromDiv (baseUrl accId branch : String) (div : Node) : Except PyErr Loan := do
  let tui ← LoanDiv.titleUrlId div
  let author := LoanDiv.authorOf div
  let typ := LoanDiv.typeOf div
  let cover ← LoanDiv.coverOf div
  let ft ← LoanDiv.fromToOf div
  let (ext, exUrl, exId) ← LoanDiv.extendOf baseUrl div
  pure
    { title := (tui.map (·.1)).getD ""
      loan_from := ft.map (·.1)
      loan_till := ft.map (·.2)
      author := author
      type := typ
      extendable := ext
      extend_url := exUrl
      extend_id := exId
      branchname := branch
      id := (tui.map (·.2.2)).getD ""
      url := (tui.map (·.2.1)).getD ""
      cover_url := cover
      account_id := accId }

/-- The sibling walk of `parse`: `h2` children update the running branch name,
`div` children are loan cards, anything else is skipped with a warning. -/
def processChildren (baseUrl accId : String) : List Node → String → Except PyErr (List Loan)
  | [], _ => .ok []
  | c :: cs, branch =>
    match c with
    | .elem "h2" _ _ => processChildren baseUrl accId cs (pyStrip (getText c))
    | .elem "div" _ _ => do
      let loan ← getLoanInfoFromDiv baseUrl accId branch c
      let rest ← processChildren baseUrl accId cs branch
      pure (loan :: rest)
    | _ => processChildren baseUrl accId cs branch

/-- `LoansListPageParser.parse()`.  When the wrapper is absent the method
returns the empty list (logging a warning if the banner text is present —
`bannerPresent` — but returning `[]` either way); otherwise it walks the
wrapper's element children with running branch name `"??"`. -/
def parse (baseUrl accId : String) (doc : Doc) : Except PyErr (List Loan) :=
  match findLoanWrapper doc with
  | none => .ok []
  | some w => processChildren baseUrl accId w.elemChildren "??"

end LoansListPageParser

/-! ## The older loans parser and `get_loans` of `mijnbibliotheek.py` -/

namespace MijnBibliotheek

/-- `MijnBibliotheek._get_loan_info_from_div(loan_div_html, branch, base_url)`:
identical to the `parsers.py` version but assembles the older `Loan`
dataclass, which has no `account_id`. -/
def getLoanInfoFromDiv (baseUrl branch : String) (div : Node) : Except PyErr LoanOld := do
  let tui ← LoanDiv.titleUrlId div
  let author := LoanDiv.authorOf div
  let typ := LoanDiv.typeOf div
  let cover ← LoanDiv.coverOf div
  let ft ← LoanDiv.fromToOf div
  let (ext, exUrl, exId) ← LoanDiv.extendOf baseUrl div
  pure
    { title := (tui.map (·.1)).getD ""
      loan_from := ft.map (·.1)
      loan_till := ft.map (·.2)
      author := author
      type := typ
      extendable := ext
      extend_url := exUrl
      extend_id := exId
      branchname := branch
      id := (tui.map (·.2.2)).getD ""
      url := (tui.map (·.2.1)).getD ""
      cover_url := cover }

/-- The sibling walk of `MijnBibliotheek._parse_account_loan_page`
(duplicated from the `parsers.py` version in the source). -/
def processChildren (baseUrl : String) : List Node → String → Except PyErr (List LoanOld)
  | [], _ => .ok []
  | c :: cs, branch =>
    match c with
    | .elem "h2" _ _ => processChildren baseUrl cs (pyStrip (getText c))
    | .elem "div" _ _ => do
      let loan ← getLoanInfoFromDiv baseUrl branch c
      let rest ← processChildren baseUrl cs branch
      pure (loan :: rest)
    | _ => processChildren baseUrl cs branch

/-- `MijnBibliotheek._parse_account_loan_page(html, base_url)`. -/
def parseAccountLoanPage (baseUrl : String) (doc : Doc) : Except PyErr (List LoanOld) :=
  match LoansListPageParser.findLoanWrapper doc with
  | none => .ok []
  | some w => processChildren baseUrl w.elemChildren "??"

/-- The parsing stage of `MijnBibliotheek.get_loans` (mijnbibliotheek.py,
lines 86-92): `htmlString` is the fetched page body and `doc` its parsed DOM.
Any exception from the parser is wrapped into `IncompatibleSourceError`, whose
`html_body` argument is the literal `""` of the source — not `htmlString`. -/
def getLoans (htmlString : String) (doc : Doc) (baseUrl : String) : Except PyErr (List LoanOld) :=
  match parseAccountLoanPage baseUrl doc with
  | .ok loans => .ok loans
  | .error e => .error (.incompatibleSource ("Problem scraping loans (" ++ pyStr e ++ ")") "")

end MijnBibliotheek

/-! ## `parsers.AccountsListPageParser` -/

/-- Python `float(s)` on decimal strings (optional sign, digits with at most
one decimal point), modelled exactly as a rational.  `none` models the
`ValueError` raised on anything else (the exotic accepted forms — exponents,
`inf`, `nan`, underscores — do not occur on the modelled pages). -/
def pyFloatOfString (s : String) : Option Rat :=
  let t := (pyStrip s).data
  let (sign, digitsPart) : Rat × List Char :=
    match t with
    | '-' :: rest => (-1, rest)
    | '+' :: rest => (1, rest)
    | _ => (1, t)
  match (splitOnAux ['.'] (digitsPart.length + 1) digitsPart []) with
  | [ip] =>
    if !ip.isEmpty && ip.all Char.isDigit then some (sign * digitsToNat ip) else none
  | [ip, fp] =>
    if (!ip.isEmpty || !fp.isEmpty) && ip.all Char.isDigit && fp.all Char.isDigit then
      some (sign * ((digitsToNat ip : Rat) + (digitsToNat fp : Rat) / ((10 : Rat) ^ fp.length)))
    else none
  | _ => none

namespace AccountsListPageParser

/-- `_parse_item_count_from_li(acc_div, class_)` (parsers.py lines 367-381).
The broad `except Exception` makes this total: any failure yields `None`. -/
def parseItemCountFromLi (accDiv : Node) (cls : String) : Option Nat :=
  match findDesc (isTagClass "li" cls) accDiv with
  | none => none
  | some li =>
    match firstDescTag "a" li with
    | none => none
    | some a =>
      let txt := pyStrip (getText a)
      if pyContains txt "Geen" then some 0
      else
        match (pyWsSplit txt).filter pyIsDigit with
        | [] => none
        | n :: _ => some (pyIntOfDigits n)

/-- The `loans_url`/`holds_url`/`open_amounts_url` pattern:
`base_url + acc_div.find("a", href=re.compile(pat)).get("href")`, with the
`AttributeError` from a missing anchor caught as `""`.  When the anchor is
found its `href` is present by the search predicate itself. -/
def urlByHrefPattern (baseUrl : String) (accDiv : Node) (pat : String) : String :=
  match findDesc (isAnchorHrefContaining pat) accDiv with
  | none => ""
  | some a => baseUrl ++ ((a.attrGet "href").getD "")

/-- The `open_amounts` block (parsers.py lines 327-344): a missing li or
anchor raises `AttributeError`, caught as `0`; a "geen" text is a confirmed
`0`; otherwise the locale-specific suffixes, the currency sign and the comma
decimal separator are rewritten and the text parsed as a float — whose
`ValueError` the `except AttributeError` does not catch. -/
def openAmountsOf (accDiv : Node) : Except PyErr Rat :=
  match findDesc (isTagClass "li" "my-library-user-library-account-list__open-amount-link") accDiv with
  | none => .ok 0
  | some li =>
    match firstDescTag "a" li with
    | none => .ok 0
    | some a =>
      let txt := getText a
      if pyContains (pyLower txt) "geen" then .ok 0
      else
        let cleaned :=
          pyReplace
            (pyReplace
              (pyReplace
                (pyReplace (pyReplace (pyLower txt) " openstaande bedragen" "")
                  " openstaand bedrag" "")
                " openstaande kosten" "")
              "€" "")
            "," "."
        match pyFloatOfString cleaned with
        | none => .error .valueError
        | some q => .ok q

/-- One account div of the accounts page (the body of the inner loop of
`AccountsListPageParser.parse`). -/
def parseAccDiv (baseUrl libTitle : String) (accDiv : Node) : Except PyErr Account := do
  let accId ←
    match firstDescTag "a" accDiv with
    | none => .error PyErr.typeError
    | some a =>
      match a.attrGet "href" with
      | none => .error (PyErr.keyError "href")
      | some href =>
        match (pySplitOn (pyStrip href) "/").get? 3 with
        | none => .error PyErr.indexError
        | some piece => pure piece
  let accUser ←
    match findDesc (isTagClass "div" "my-library-user-library-account-list__name") accDiv with
    | none => .error PyErr.attributeError
    | some d => pure (pyStrip (getText d))
  let loansCount := parseItemCountFromLi accDiv "my-library-user-library-account-list__loans-link"
  let loansUrl := urlByHrefPattern baseUrl accDiv "uitleningen"
  let holdsCount := parseItemCountFromLi accDiv "my-library-user-library-account-list__holds-link"
  let holdsUrl := urlByHrefPattern baseUrl accDiv "reservaties"
  let openAmounts ← openAmountsOf accDiv
  let openAmountsUrl := urlByHrefPattern baseUrl accDiv "betalen"
  pure
    { id := accId
      library_name := libTitle
      user := accUser
      loans_count := loansCount
      loans_url := loansUrl
      reservations_count := holdsCount
      reservations_url := holdsUrl
      open_amounts := openAmounts
      open_amounts_url := openAmountsUrl }

/-- The inner loop over the account divs of one library div. -/
def processAccDivs (baseUrl libTitle : String) : List Node → Except PyErr (List Account)
  | [] => .ok []
  | d :: ds => do
    let a ← parseAccDiv baseUrl libTitle d
    let rest ← processAccDivs baseUrl libTitle ds
    pure (a :: rest)

/-- The library title of one library div:
`find("div", class_=...title-content).find(string=True, recursive=False)`,
where a missing div or a div without a direct text child raises an uncaught
`AttributeError`. -/
def libTitleOf (libDiv : Node) : Except PyErr String :=
  match findDesc (isTagClass "div" "my-library-user-library-account-list__title-content") libDiv with
  | none => .error PyErr.attributeError
  | some tc =>
    match tc.textChildren.head? with
    | none => .error PyErr.attributeError
    | some s => .ok (pyStrip s)

/-- The outer loop over the library divs. -/
def processLibDivs (baseUrl : String) : List Node → Except PyErr (List Account)
  | [] => .ok []
  | libDiv :: rest => do
    let title ← libTitleOf libDiv
    let accs ← processAccDivs baseUrl title
      (findAllDesc (isTagClass "div" "my-library-user-library-account-list__account") libDiv)
    let more ← processLibDivs baseUrl rest
    pure (accs ++ more)

/-- The `soup.find_all("div", class_="...__library")` lookup opening `parse`. -/
def findLibraryDivs (doc : Doc) : List Node :=
  findAllList (isTagClass "div" "my-library-user-library-account-list__library") doc

/-- `AccountsListPageParser.parse()` (parsers.py lines 271-365).  When no
library div is found the method logs a warning and the loop produces `[]`. -/
def parse (baseUrl : String) (doc : Doc) : Except PyErr (List Account) :=
  processLibDivs baseUrl (findLibraryDivs doc)

end AccountsListPageParser

/-! ## `parsers.ReservationsPageParser` -/

namespace ReservationsPageParser

/-- The availability block of one hold card (parsers.py lines 502-514):
returns `(available, endavailable)`.  A missing fourth-section div or `<h3>`
raises `AttributeError`, caught with `available` left unset (default `False`).
When the card is available, a missing `<strong>` raises `AttributeError`
*after* `available=True` was stored (caught — no end date), and a malformed
date raises an uncaught `ValueError`. -/
def availabilityOf (child : Node) : Except PyErr (Bool × Option PyDate) :=
  match findDesc (isTagClass "div" "my-library-user-library-account-holds__hold-fourth card--fourth-section") child with
  | none => .ok (false, none)
  | some d4 =>
    match firstDescTag "h3" d4 with
    | none => .ok (false, none)
    | some h3 =>
      if pyContains (pyStrip (getText h3)) "Klaar om af te halen" then
        match firstDescTag "strong" d4 with
        | none => .ok (true, none)
        | some st =>
          match strptimeDMY (pyStrip (getText st)) with
          | none => .error .valueError
          | some dt => .ok (true, some dt)
      else .ok (false, none)

/-- The dated `<p>` pattern (`request_on` / `valid_till`): find a `<p>` whose
string contains the marker, drop the marker text, strip, and `strptime` it.
A missing `<p>` raises `AttributeError` (caught: field unset); a malformed
date raises an uncaught `ValueError`. -/
def dateFromP (child : Node) (marker replaceText : String) : Except PyErr (Option PyDate) :=
  match findDesc (isTagWithStringContaining "p" marker) child with
  | none => .ok none
  | some p =>
    match strptimeDMY (pyStrip (pyReplace (getText p) replaceText "")) with
    | none => .error .valueError
    | some d => .ok (some d)

/-- One hold card (the body of the loop of `ReservationsPageParser.parse`,
parsers.py lines 444-527). -/
def parseHold (child : Node) : Except PyErr Reservation := do
  let typ :=
    match findDesc (isTagClass "div" "catalog-item__content") child with
    | none => ""
    | some c =>
      match firstDescTag "span" c with
      | none => ""
      | some sp => pyStrip (getText sp)
  let requestOn ← dateFromP child "Aangevraagd op" "Aangevraagd op "
  let validTill ← dateFromP child "Aanvraag geldig tot" "Aanvraag geldig tot "
  let (title, url) ←
    match findDesc (isTagClass "h2" "catalog-item__title") child with
    | none => pure ("", "")
    | some h2 =>
      match firstDescTag "a" h2 with
      | none => pure ("", "")
      | some a =>
        match a.attrGet "href" with
        | none => .error (PyErr.keyError "href")
        | some href => pure (pyStrip (getText a), href)
  let author :=
    match findDesc (isTagClass "div" "catalog-item__authors") child with
    | none => ""
    | some d => pyStrip (getText d)
  let location :=
    match findDesc (isTagClass "div" "my-library-user-library-account-holds__hold-third card--third-section") child with
    | none => ""
    | some d =>
      match firstDescTag "strong" d with
      | none => ""
      | some st => pyStrip (getText st)
  let (available, endAvailable) ← availabilityOf child
  pure
    { title := title
      type := typ
      url := url
      author := author
      location := location
      available := available
      available_till := endAvailable
      request_on := requestOn
      valid_till := validTill }

/-- The loop over the hold cards. -/
def processHolds : List Node → Except PyErr (List Reservation)
  | [] => .ok []
  | c :: cs => do
    let h ← parseHold c
    let rest ← processHolds cs
    pure (h :: rest)

/-- The `soup.find("div", class_="...hold-wrapper")` lookup opening `parse`. -/
def findHoldWrapper (doc : Doc) : Option Node :=
  findList (isTagClass "div" "my-library-user-library-account-holds__hold-wrapper") doc

/-- `ReservationsPageParser.parse()` (parsers.py lines 433-529): when the
hold wrapper is absent, return the empty list. -/
def parse (doc : Doc) : Except PyErr (List Reservation) :=
  match findHoldWrapper doc with
  | none => .ok []
  | some w => processHolds w.elemChildren

end ReservationsPageParser

/-! ## `parsers.ExtendResponsePageParser._parse_extend_response_status_blob` -/

/-- One entry of the `details` list of the extend-result dict
(`untilDate` models the Python dict key named after the preposition,
which is a reserved word in Lean). -/
structure ExtendDetail where
  title : String
  untilDate : PyDate
  deriving DecidableEq, Repr

/-- The extend-result dict
`{"likely_success": ..., "count": ..., "details": [...]}`. -/
structure ExtendResult where
  likely_success : Bool
  count : Nat
  details : List ExtendDetail
  deriving DecidableEq, Repr

namespace ExtendResponsePageParser

/-- Python `s.rsplit(" ", 1)[-1]`: the text after the last space (the whole
string when it has no space). -/
def afterLastSpace (s : String) : String :=
  ⟨(s.data.reverse.takeWhile (fun c => c != ' ')).reverse⟩

/-- The `soup.find("ul", class_="messages__list")` lookup. -/
def findMessagesList (doc : Doc) : Option Node :=
  findList (isTagClass "ul" "messages__list") doc

/-- `msg_lis = ....find_all("li")`. -/
def messageItems (ul : Node) : List Node :=
  findAllDesc (isTag "li") ul

/-- The loop over the non-head `<li>` items of the success branch
(parsers.py lines 599-602).  Returns the details collected plus an
aborted-flag: `li.em` being `None` raises `AttributeError`, which the outer
handler catches, ending the whole method early with the details collected so
far; a malformed date raises `ValueError` out of the method (`strptime` runs
before the `em` access). -/
def detailsLoop : List Node → Except PyErr (List ExtendDetail × Bool)
  | [] => .ok ([], false)
  | li :: rest =>
    match strptimeDMY (pyStripSet (afterLastSpace (getText li)) ['.']) with
    | none => .error .valueError
    | some dt =>
      match firstDescTag "em" li with
      | none => .ok ([], true)
      | some em =>
        match detailsLoop rest with
        | .error e => .error e
        | .ok (ds, aborted) => .ok (⟨getText em, dt⟩ :: ds, aborted)

/-- `_parse_extend_response_status_blob(html_string)` (parsers.py lines
565-611).  A missing `messages__list` raises `AttributeError`, caught: the
accumulated `(False, 0, [])` is returned.  With a message list: the success
phrase in the first item triggers the detail loop; an abort inside the loop
jumps to the handler and returns the values accumulated so far (skipping the
failure-phrase check); otherwise the failure phrase in the first item resets
`success`/`count` — but not `details`. -/
def parseStatusBlob (doc : Doc) : Except PyErr ExtendResult :=
  match findMessagesList doc with
  | none => .ok ⟨false, 0, []⟩
  | some ul =>
    match messageItems ul with
    | [] => .ok ⟨false, 0, []⟩
    | li0 :: rest =>
      let t0 := getText li0
      if pyContains t0 "werden succesvol verlengd" then
        match detailsLoop rest with
        | .error e => .error e
        | .ok (ds, aborted) =>
          if aborted then .ok ⟨true, rest.length, ds⟩
          else if pyContains t0 "Er ging iets fout bij het verlengen" then .ok ⟨false, 0, ds⟩
          else .ok ⟨true, rest.length, ds⟩
      else .ok ⟨false, 0, []⟩

end ExtendResponsePageParser

/-! ## `MijnBibliotheek.get_all_info` (mijnbibliotheek.py lines 134-159)

`get_all_info` first calls `get_accounts()`, then loops over the accounts; we
model the loop, taking the account list and the `get_loans`/`get_reservations`
operations (network-backed, hence abstract and fallible) as inputs.  The
`all_as_dicts` flag only changes the record representation and is not
modelled.  A `FetchEv` trace records which fetches were issued. -/

/-- One fetch issued by the `get_all_info` loop. -/
inductive FetchEv where
  | loans (accountId : String)
  | holds (accountId : String)
  deriving DecidableEq, Repr

/-- The account id a fetch event refers to. -/
def FetchEv.accId : FetchEv → String
  | .loans i => i
  | .holds i => i

/-- One value of the `info` dict: `account_details`, `loans`, `reservations`.
The loan/reservation element types are parameters since `get_all_info` treats
them opaquely. -/
structure AllInfoEntry (α β : Type) where
  account_details : Account
  loans : List α
  reservations : List β
  deriving DecidableEq, Repr

/-- Python dict assignment `info[k] = v` on an insertion-ordered
association list. -/
def dictInsert {v : Type} (m : List (String × v)) (k : String) (val : v) : List (String × v) :=
  if m.any (fun p => p.1 == k) then
    m.map (fun p => if p.1 == k then (k, val) else p)
  else m ++ [(k, val)]

namespace MijnBibliotheek

/-- The loop of `get_all_info`:
`loans = self.get_loans(a.id) if a.loans_count != 0 else []` and the analogous
line for reservations, then `info[a.id] = {...}`.  Note the Python condition:
`None != 0` is `True`, so an *unknown* count also triggers the fetch; only a
confirmed `0` skips it.  An exception from a fetch propagates. -/
def getAllInfoAux {α β : Type} (gl : String → Except PyErr (List α))
    (gh : String → Except PyErr (List β)) :
    List Account → List (String × AllInfoEntry α β) → List FetchEv →
      Except PyErr (List (String × AllInfoEntry α β) × List FetchEv)
  | [], m, tr => .ok (m, tr)
  | a :: rest, m, tr =>
    match (if a.loans_count != some 0 then (gl a.id).map (fun ls => (ls, [FetchEv.loans a.id]))
           else .ok ([], [])) with
    | .error e => .error e
    | .ok (ls, ev1) =>
      match (if a.reservations_count != some 0 then (gh a.id).map (fun hs => (hs, [FetchEv.holds a.id]))
             else .ok ([], [])) with
      | .error e => .error e
      | .ok (hs, ev2) =>
        getAllInfoAux gl gh rest (dictInsert m a.id ⟨a, ls, hs⟩) (tr ++ ev1 ++ ev2)

/-- `get_all_info`, given the accounts returned by `get_accounts` and the two
fetch operations.  Returns the `info` mapping (keyed by account id) and the
trace of fetches issued. -/
def getAllInfo {α β : Type} (accounts : List Account)
    (gl : String → Except PyErr (List α)) (gh : String → Except PyErr (List β)) :
    Except PyErr (List (String × AllInfoEntry α β) × List FetchEv) :=
  getAllInfoAux gl gh accounts [] []

end MijnBibliotheek

/-! ## `login_handlers.LoginByOAuth` (login_handlers.py lines 80-210)

The HTTP session is modelled by an oracle giving the response to the k-th
request issued; the login engine records the trace of requests.  Responses
carry status, headers and body text. -/

/-- An HTTP response as seen through `requests` (status, headers, text). -/
structure HttpResponse where
  status : Nat
  headers : List (String × String)
  body : String
  deriving DecidableEq, Repr

/-- `response.headers.get(k, "")` (the source only reads `location`;
case-insensitivity of `requests` headers is not needed for the model). -/
def HttpResponse.header (r : HttpResponse) (k : String) : Option String :=
  (r.headers.find? (fun p => p.1 == k)).map (·.2)

/-- The form data POSTed to the fixed login endpoint in step (3):
`hint`, `token` and `callback` come from `parse_qs` (lists of strings, absent
keys give `None`), the credentials are strings. -/
structure LoginPostData where
  hint : Option (List String)
  token : Option (List String)
  callback : Option (List String)
  email : String
  password : String
  deriving DecidableEq, Repr

/-- One request issued by the login engine. -/
inductive Request where
  | get (url : String)
  | post (url : String) (data : LoginPostData)
  deriving DecidableEq, Repr

/-- Whether a request is a POST (the credential submission). -/
def Request.isPost : Request → Bool
  | .post _ _ => true
  | .get _ => false

/-- `urlsplit(u).query`: the text between the first `?` and the fragment. -/
def queryOf (u : String) : String :=
  match firstIndexOfSub "?".data u.data with
  | none => ""
  | some i =>
    let after := u.data.drop (i + 1)
    match firstIndexOfSub "#".data after with
    | some j => ⟨after.take j⟩
    | none => ⟨after⟩

/-- `urllib.parse.parse_qs` as a pair list (percent-decoding is not needed on
the modelled URLs): `&`-separated `k=v` pieces; pieces without `=` or with an
empty value are dropped (the default `keep_blank_values=False`). -/
def parseQSL (q : String) : List (String × String) :=
  (pySplitOn q "&").filterMap (fun piece =>
    match pySplitOn piece "=" with
    | [] => none
    | [_] => none
    | k :: vs =>
      let v := String.intercalate "=" vs
      if v == "" then none else some (k, v))

/-- `parse_qs(...).get(k)`: all values bound to `k`, `None` when there are
none. -/
def qsGet (q : List (String × String)) (k : String) : Option (List String) :=
  match (q.filter (fun p => p.1 == k)).map (·.2) with
  | [] => none
  | vs => some vs

/-- What `LoginByOAuth._log_in` returns: the literal `True` of the
already-authenticated shortcut (a `# TODO: fix` in the source), or the final
response of step (5). -/
inductive LoginOutcome where
  | alreadyTrue
  | response (r : HttpResponse)
  deriving DecidableEq, Repr

namespace LoginByOAuth

/-- The fixed credential-POST endpoint of step (3). -/
def loginApiUrl : String := "https://mijn.bibliotheek.be/openbibid/rest/auth/login"

/-- `LoginByOAuth._log_in` (login_handlers.py lines 110-193).  Steps:
(1) GET the login-entry URL; extract `oauth_callback`/`oauth_token`/`hint`
from the query of its `Location` header; if the status is NOT 302, return the
literal `True` — this is the only shortcut, taken regardless of the query
parameters.  (2) GET the redirect target, `assert` 200.  (3) POST the
credentials and tokens to the fixed endpoint, `assert` 303.  (4) GET the
`Location` of step (3).  (5) GET the memberships page, `assert` 200, and
return that response.  A failed `assert` raises `AssertionError`. -/
def logIn (oracle : Nat → HttpResponse) (username password url baseUrl : String) :
    Except PyErr LoginOutcome × List Request :=
  let r1 := oracle 0
  let trace1 := [Request.get url]
  let oauthLocationUrl := (r1.header "location").getD ""
  let qp := parseQSL (queryOf oauthLocationUrl)
  if r1.status != 302 then (.ok .alreadyTrue, trace1)
  else
    let r2 := oracle 1
    let trace2 := trace1 ++ [Request.get oauthLocationUrl]
    if r2.status != 200 then (.error .assertionError, trace2)
    else
      let postData : LoginPostData :=
        { hint := qsGet qp "hint"
          token := qsGet qp "oauth_token"
          callback := qsGet qp "oauth_callback"
          email := username
          password := password }
      let r3 := oracle 2
      let trace3 := trace2 ++ [Request.post loginApiUrl postData]
      let loginLocationUrl := (r3.header "location").getD ""
      if r3.status != 303 then (.error .assertionError, trace3)
      else
        let trace4 := trace3 ++ [Request.get loginLocationUrl]
        let r5 := oracle 4
        let trace5 := trace4 ++ [Request.get (baseUrl ++ "/mijn-bibliotheek/lidmaatschappen")]
        if r5.status != 200 then (.error .assertionError, trace5)
        else (.ok (.response r5), trace5)

/-- `LoginByOAuth._validate_logged_in(html)` (lines 195-210). -/
def validateLoggedIn (html : String) : Except PyErr Unit :=
  if !pyContains html "Profiel" then
    if pyContains html "privacyverklaring is gewijzigd" ||
        pyContains html "akkoord met de privacyverklaring" then
      .error (.authenticationError "Login not accepted (likely need to accept privacy statement again)")
    else .error (.authenticationError "Login not accepted")
  else if !pyContains html "Aangemeld als" then
    .error (.authenticationError "Login not accepted (2)")
  else .ok ()

/-- `LoginByOAuth.login` (lines 98-108): run `_log_in`, then
`html = response.text if response is not None else ""`.  When `_log_in`
returned the literal `True`, `True.text` raises `AttributeError`; otherwise
the body of the final response is validated.  (The cookie transfer to the
mechanize browser is outside the model.) -/
def login (oracle : Nat → HttpResponse) (username password url baseUrl : String) :
    Except PyErr LoginOutcome × List Request :=
  match logIn oracle username password url baseUrl with
  | (.error e, tr) => (.error e, tr)
  | (.ok .alreadyTrue, tr) => (.error .attributeError, tr)
  | (.ok (.response r), tr) =>
    match validateLoggedIn r.body with
    | .error e => (.error e, tr)
    | .ok _ => (.ok (.response r), tr)

end LoginByOAuth

/-! ## Concrete documents

`sampleLoansDoc` is the DOM of the documented sample loans page — the doctest
of `LoansListPageParser.parse` (parsers.py lines 42-88), as parsed by
`html.parser` (entity references in attribute values decoded). -/

namespace Fixtures

/-- Shorthand for a `<span>` with one text child. -/
def span (s : String) : Node := .elem "span" [] [.text s]

/-- The loan card of the documented sample page. -/
def sampleCard : Node :=
  .elem "div"
    [("class", "card my-library-user-library-account-loans__loan my-library-user-library-account-loans__loan-type-")]
    [.text "\n    ",
     .elem "div" [("class", "my-library-user-library-account-loans__loan-content card--content")]
       [.text "\n    ",
        .elem "div" [("class", "my-library-user-library-account-loans__loan-cover card--cover")]
          [.text "\n        ",
           .elem "img"
             [("class", "my-library-user-library-account-loans__loan-cover-img card--cover-img"),
              ("src", "https://webservices.bibliotheek.be/index.php?func=cover&ISBN=9789000359325&VLACCnr=10157217&CDR=&EAN=&ISMN=&EBS=&coversize=medium"),
              ("alt", "Erebus")] [],
           .text "\n    "],
        .text "\n    ",
        .elem "div" [("class", "my-library-user-library-account-loans__loan-intro card--intro")]
          [.text "\n        ",
           .elem "div"
             [("class", "my-library-user-library-account-loans__loan-type-label card--type-label atalog-item-icon catalog-item-icon--book")]
             [.text "\n        Boek"],
           .text "\n        ",
           .elem "h3" [("class", "my-library-user-library-account-loans__loan-title card--title")]
             [.elem "a"
                [("href", "https://city.bibliotheek.be/resolver.ashx?extid=%7Cwise-oostvlaanderen%7C1324927")]
                [.text "Erebus"]],
           .text "\n    "],
        .text "\n    "],
     .text "\n    ",
     .elem "div" [("class", "my-library-user-library-account-loans__loan-footer card--footer")]
       [.text "\n    ",
        .elem "div" [("class", "author")] [.text "\n        Palin, Michael\n    "],
        .text "\n    ",
        .elem "div" [("class", "my-library-user-library-account-loans__loan-days card--days ")]
          [.text "\n        Nog 23 dagen\n    "],
        .text "\n    ",
        .elem "div" [("class", "my-library-user-library-account-loans__loan-from-to card--from-to")]
          [.text "\n        ",
           .elem "div" [] [.text "\n        ", span "Van", .text "\n        ", span "25/11/2023", .text "\n        "],
           .text "\n        ",
           .elem "div" []
             [.text "\n        ", span "Tot en met", .text "\n        ", span "23/12/2023", .text "\n        "],
           .text "\n    "],
        .text "\n    ",
        .elem "div" [("class", "my-library-user-library-account-loans__extend-loan card--extend-loan")]
          [.text "\n        ",
           .elem "div" []
             [.text "\n        ",
              .elem "input"
                [("type", "checkbox"), ("id", "6207416"), ("value", "6207416"), ("data-renew-loan", "")] [],
              .text "\n        ",
              .elem "label" [("for", "6207416")] [.text "Selecteren"],
              .text "\n        "],
           .text "\n        ",
           .elem "a" [("href", "/mijn-bibliotheek/lidmaatschappen/374052/uitleningen/verlengen?loan-ids=6207416")]
             [.text "Verleng"],
           .text "\n    "],
        .text "\n    "],
     .text "\n"]

/-- The documented sample loans page: the wrapper with one branch header and
one loan card. -/
def sampleLoansDoc : Doc :=
  [.text "\n",
   .elem "div" [("class", "my-library-user-library-account-loans__loan-wrapper")]
     [.text "\n", .elem "h2" [] [.text "Gent Hoofdbibiliotheek"], .text "\n\n", sampleCard, .text "\n"]]

/-- The `Loan` the doctest documents for `sampleLoansDoc`, for a given
account id. -/
def sampleLoan (accId : String) : Loan :=
  { title := "Erebus"
    loan_from := some ⟨2023, 11, 25⟩
    loan_till := some ⟨2023, 12, 23⟩
    author := "Palin, Michael"
    type := "Boek"
    extendable := some true
    extend_url := "https://city.bibliotheek.be/mijn-bibliotheek/lidmaatschappen/374052/uitleningen/verlengen?loan-ids=6207416"
    extend_id := some "6207416"
    branchname := "Gent Hoofdbibiliotheek"
    id := "1324927"
    url := "https://city.bibliotheek.be/resolver.ashx?extid=%7Cwise-oostvlaanderen%7C1324927"
    cover_url := "https://webservices.bibliotheek.be/index.php?func=cover&ISBN=9789000359325&VLACCnr=10157217&CDR=&EAN=&ISMN=&EBS=&coversize=medium"
    account_id := accId }

/-- A page carrying only the "service temporarily unavailable" banner (no
loan wrapper). -/
def bannerDoc : Doc :=
  [.elem "div" [("class", "messages")] [.text LoansListPageParser.bannerMsg]]

/-- A minimal loan card: no title/author/type/date/extend markup, but with the
cover image the extractor requires (a card without `<img>` makes the extractor
raise `TypeError`). -/
def bareCard : Node :=
  .elem "div" []
    [.elem "img"
       [("class", "my-library-user-library-account-loans__loan-cover-img"), ("src", "cover.png")] []]

/-- The `Loan` extracted from `bareCard`: every independently-failable field
at its default, except the cover URL. -/
def bareLoan (branch accId : String) : Loan :=
  { cover_url := "cover.png", branchname := branch, account_id := accId }

/-- A loans page whose branch header `<h2>` is empty, followed by a loan
card: the card is assigned the stripped header text, which is `""`. -/
def emptyH2Doc : Doc :=
  [.elem "div" [("class", "my-library-user-library-account-loans__loan-wrapper")]
     [.elem "h2" [] [], bareCard]]

/-- A branch header with text "Hoofdbranch". -/
def hoofdH2 : Node := .elem "h2" [] [.text "Hoofdbranch"]

/-- The wrapper of a loans page with a loan card *before* the first branch
header. -/
def cardBeforeH2Wrapper : Node :=
  .elem "div" [("class", "my-library-user-library-account-loans__loan-wrapper")]
    [bareCard, hoofdH2, bareCard]

/-- A loans page with a loan card *before* the first branch header. -/
def cardBeforeH2Doc : Doc := [cardBeforeH2Wrapper]

/-- A loans page whose card's extend-loan section has an anchor with a href
and an `<input>` *without* an `id` attribute: the extractor stores Python
`None` in `extend_id` while setting `extendable=True`. -/
def inputWithoutIdDoc : Doc :=
  [.elem "div" [("class", "my-library-user-library-account-loans__loan-wrapper")]
     [.elem "div" []
        [.elem "img"
           [("class", "my-library-user-library-account-loans__loan-cover-img"), ("src", "cover.png")] [],
         .elem "div" [("class", "card--extend-loan")]
           [.elem "input" [("type", "checkbox")] [],
            .elem "a" [("href", "/verlengen?loan-ids=1")] [.text "Verleng"]]]]]

/-- The loan card of the repository's own test
`test_parse_account_loans_new_extend_ui` (tests/test_parsers.py): the
extend-loan section carries an `<input id="abc123">` but *no* anchor. -/
def newExtendUiDoc : Doc :=
  [.elem "div" [("class", "my-library-user-library-account-loans__loan-wrapper")]
     [.text "\n", .elem "h2" [] [.text "Gent Hoofdbibliotheek"], .text "\n\n",
      .elem "div"
        [("class", "card my-library-user-library-account-loans__loan my-library-user-library-account-loans__loan-type-")]
        [.elem "div" [("class", "my-library-user-library-account-loans__loan-content card--content")]
           [.elem "div" [("class", "my-library-user-library-account-loans__loan-cover card--cover")]
              [.elem "img"
                 [("class", "my-library-user-library-account-loans__loan-cover-img card--cover-img"),
                  ("src", "https://webservices.bibliotheek.be/index.php?func=cover&ISBN=1234567890123&VLACCnr=12345678&CDR=&EAN=&ISMN=&EBS=&coversize=medium"),
                  ("alt", "Een willekeurige boektitel")] []],
            .elem "div" [("class", "my-library-user-library-account-loans__loan-intro card--intro")]
              [.elem "div"
                 [("class", "my-library-user-library-account-loans__loan-type-label card--type-label atalog-item-icon catalog-item-icon--book")]
                 [.text "\n        Boek"],
               .elem "h3" [("class", "my-library-user-library-account-loans__loan-title card--title")]
                 [.elem "a"
                    [("href", "https://city.bibliotheek.be/resolver.ashx?extid=%7Cwise-oostvlaanderen%7C4690970")]
                    [.text "Een willekeurige boektitel"]]]],
         .elem "div" [("class", "my-library-user-library-account-loans__loan-footer card--footer")]
           [.elem "div" [("class", "author")] [.text "\n        Doe, John\n    "],
            .elem "div" [("class", "my-library-user-library-account-loans__loan-days card--days ")]
              [.text "\n        Nog 16 dagen\n    "],
            .elem "div" [("class", "my-library-user-library-account-loans__loan-from-to card--from-to")]
              [.elem "div" [] [span "Van", span "15/01/2025"],
               .elem "div" [] [span "Tot en met", span "12/02/2025"]],
            .elem "div" [("class", "my-library-user-library-account-loans__extend-loan card--extend-loan")]
              [.elem "div" []
                 [.elem "input"
                    [("type", "checkbox"), ("id", "abc123"), ("value", "abc123"), ("data-renew-loan", "")] [],
                  .elem "label" [("for", "abc123")] [.text "Selecteer om te verlengen"]]]]]]]

/-- A loans page on which the extractor raises (`TypeError` from the missing
cover image), together with its raw HTML text. -/
def failingLoansDoc : Doc :=
  [.elem "div" [("class", "my-library-user-library-account-loans__loan-wrapper")]
     [.elem "div" [] []]]

/-- The raw HTML of `failingLoansDoc` (a non-empty response body). -/
def failingLoansRaw : String :=
  "<div class=\"my-library-user-library-account-loans__loan-wrapper\"><div></div></div>"

/-- An extend-result message list whose first item contains BOTH the success
phrase and the failure phrase, followed by a well-formed detail item. -/
def bothPhrasesBlobDoc : Doc :=
  [.elem "ul" [("class", "messages__list")]
     [.elem "li" [("class", "messages__item")]
        [.text "Deze uitleningen werden succesvol verlengd: maar Er ging iets fout bij het verlengen"],
      .elem "li" [("class", "messages__item")]
        [.text "\"", .elem "em" [("class", "placeholder")] [.text "Vastberaden!"],
         .text "\" tot 13/01/2024."]]]

/-- First message item of the "Foutmelding" test blob. -/
def foutLi0 : Node :=
  .elem "li" [("class", "messages__item")]
    [.text "Er ging iets fout bij het verlengen van deze uitleningen:"]

/-- Second message item of the "Foutmelding" test blob. -/
def foutLi1 : Node :=
  .elem "li" [("class", "messages__item")]
    [.elem "strong" [] [.text "\"", .elem "em" [("class", "placeholder")] [.text "De Helvetii"], .text "\""],
     .text "Reden: Er ging iets fout, gelieve het later opnieuw te proberen."]

/-- The message list of the "Foutmelding" test blob. -/
def foutUl : Node := .elem "ul" [("class", "messages__list")] [foutLi0, foutLi1]

/-- The failure blob of the repository's test
`test_parse_extend_response_status_blob__foutmelding_case`: the first item
contains only the failure phrase. -/
def foutBlobDoc : Doc := [foutUl]

/-- An account whose loans count is *unknown* (`None`) and whose
reservations count is a confirmed zero. -/
def unknownCountAccount : Account :=
  { library_name := "Dijk92"
    user := "Johny"
    id := "374047"
    loans_count := none
    loans_url := ""
    reservations_count := some 0
    reservations_url := ""
    open_amounts := 0
    open_amounts_url := "" }

/-- A loans fetch returning one loan (so that a fetch is observable in the
result mapping). -/
def oneLoanFetch : String → Except PyErr (List LoanOld) := fun _ => .ok [{ title := "Erebus" }]

/-- A reservations fetch returning no holds. -/
def noHoldsFetch : String → Except PyErr (List Reservation) := fun _ => .ok []

/-- The redirect target of the already-authenticated case: no query string. -/
def noQueryLocation : String := "https://gent.bibliotheek.be/my-library/login/callback"

/-- A response oracle whose initial GET answers with a 302 redirect whose
target has no query parameters, and which then plays along with the rest of
the flow. -/
def redirectNoQueryOracle : Nat → HttpResponse
  | 0 => { status := 302, headers := [("location", noQueryLocation)], body := "" }
  | 1 => { status := 200, headers := [], body := "" }
  | 2 => { status := 303,
           headers := [("location", "https://gent.bibliotheek.be/my-library/login/callback?oauth_token=t&oauth_verifier=v&uilang=nl")],
           body := "" }
  | 3 => { status := 302, headers := [], body := "" }
  | _ => { status := 200, headers := [], body := "Profiel ... Aangemeld als Johny" }

end Fixtures


/-! ## Theorems -/

/-! ### C3 — the documented sample round-trip -/

/-- C3: on the documented sample loans-page fragment (one `h2` branch header
"Gent Hoofdbibiliotheek" and one loan card for "Erebus"), the loans extractor
returns exactly one `Loan` with title "Erebus", loan_from 25/11/2023,
loan_till 23/12/2023, author "Palin, Michael", type "Boek", extendable True,
extend_id "6207416", branchname "Gent Hoofdbibiliotheek", id "1324927", and
`account_id` equal to whatever account id was passed to the parser. -/
theorem loansParse_sample_roundtrip (accId : String) :
    LoansListPageParser.parse "https://city.bibliotheek.be" accId Fixtures.sampleLoansDoc =
      .ok [Fixtures.sampleLoan accId] := rfl

/-! ### C2 — the "service temporarily unavailable" banner -/

/-- C2 (counterexample): on a page that carries the site's
"Er is een fout opgetreden ..." banner and no loan wrapper, the loans
extractor does NOT raise `TemporarySiteError` — it returns the empty list
(the claim asserts it raises rather than returning an empty list). -/
theorem loansParse_banner_counterexample :
    LoansListPageParser.bannerPresent Fixtures.bannerDoc = true ∧
      (LoansListPageParser.findLoanWrapper Fixtures.bannerDoc).isNone = true ∧
      LoansListPageParser.parse "https://city.bibliotheek.be" "123456" Fixtures.bannerDoc =
        .ok [] := by
  refine ⟨by decide, by decide, by decide⟩

/-- C2 (amended): whenever the expected loan-list wrapper container is absent
— in particular when the "service temporarily unavailable" banner is present
instead — the loans extractor logs a warning and returns the empty list; no
exception (and in particular no `TemporarySiteError`) is raised. -/
theorem loansParse_banner_returns_empty (baseUrl accId : String) (doc : Doc)
    (h : LoansListPageParser.findLoanWrapper doc = none) :
    LoansListPageParser.parse baseUrl accId doc = .ok [] := by
  unfold LoansListPageParser.parse
  rw [h]

/-- Witness for `loansParse_banner_returns_empty` at the banner page. -/
theorem loansParse_banner_returns_empty_witness :
    LoansListPageParser.parse "https://city.bibliotheek.be" "123456" Fixtures.bannerDoc = .ok [] :=
  loansParse_banner_returns_empty "https://city.bibliotheek.be" "123456" Fixtures.bannerDoc rfl

/-! ### C5 — the input-id-without-action-link UI variant -/

/-- C5 (code bug): on the loan card of the repository's own test
`test_parse_account_loans_new_extend_ui` — whose extend-loan section has an
`<input id="abc123">` but no action link — the loans extractor raises an
uncaught `TypeError` (`extend_loan_div.a` is `None`, and `None["href"]` is a
`TypeError`, which the `except AttributeError` does not catch), instead of
producing the `extendable=True` loan with the synthesized extend URL that
the claim (and the repository's test) expects. -/
theorem newExtendUi_raises_typeError :
    LoansListPageParser.parse "https://city.bibliotheek.be" "account123" Fixtures.newExtendUiDoc =
      .error .typeError := by
  decide

/-! ### C6 — non-matching input yields empty lists, no exception -/

/-- C6: for any HTML input matching none of the expected page structures —
no loan wrapper, no service-unavailable banner, no account-list library div,
no holds wrapper — the loans, accounts and reservations extractors all return
the empty list without raising (the empty string parses to the empty
document, which satisfies all four premises). -/
theorem parsers_return_empty_on_nonmatching (baseL accId baseA : String) (doc : Doc)
    (h1 : LoansListPageParser.findLoanWrapper doc = none)
    (h2 : LoansListPageParser.bannerPresent doc = false)
    (h3 : AccountsListPageParser.findLibraryDivs doc = [])
    (h4 : ReservationsPageParser.findHoldWrapper doc = none) :
    LoansListPageParser.parse baseL accId doc = .ok [] ∧
      AccountsListPageParser.parse baseA doc = .ok [] ∧
      ReservationsPageParser.parse doc = .ok [] := by
  refine ⟨?_, ?_, ?_⟩
  · unfold LoansListPageParser.parse
    rw [h1]
  · unfold AccountsListPageParser.parse
    rw [h3]
    rfl
  · unfold ReservationsPageParser.parse
    rw [h4]

/-- Witness for `parsers_return_empty_on_nonmatching` at a non-matching text
document. -/
theorem parsers_return_empty_on_nonmatching_witness :
    LoansListPageParser.parse "https://x" "1" [.text "bogus"] = .ok [] ∧
      AccountsListPageParser.parse "https://x" [.text "bogus"] = .ok [] ∧
      ReservationsPageParser.parse [.text "bogus"] = .ok [] :=
  parsers_return_empty_on_nonmatching "https://x" "1" "https://x" [.text "bogus"]
    rfl (by decide) rfl rfl

/-! ### C7 — the "Er ging iets fout bij het verlengen" blob -/

/-- C7 (counterexample): when the first message item contains the failure
phrase *and also* the success phrase, the blob parser reports
`likely_success=False, count=0` but a NON-empty `details` list — the claim's
`details: []` does not hold "regardless of any other list items present". -/
theorem statusBlob_fout_counterexample :
    ExtendResponsePageParser.parseStatusBlob Fixtures.bothPhrasesBlobDoc =
      .ok ⟨false, 0, [⟨"Vastberaden!", ⟨2024, 1, 13⟩⟩]⟩ := by
  decide

/-- C7 (amended): whenever the first item of the decoded message list
contains "Er ging iets fout bij het verlengen" and does NOT also contain the
success phrase "werden succesvol verlengd", the blob parser returns
`{likely_success: False, count: 0, details: []}` regardless of any other list
items present.  (With both phrases in the first item, `details` can be
non-empty: the failure branch resets `success` and `count` but not
`details`.) -/
theorem statusBlob_fout_forces_failure (doc : Doc) (ul li0 : Node) (rest : List Node)
    (h1 : ExtendResponsePageParser.findMessagesList doc = some ul)
    (h2 : ExtendResponsePageParser.messageItems ul = li0 :: rest)
    (h3 : pyContains (getText li0) "Er ging iets fout bij het verlengen" = true)
    (h4 : pyContains (getText li0) "werden succesvol verlengd" = false) :
    ExtendResponsePageParser.parseStatusBlob doc = .ok ⟨false, 0, []⟩ := by
  unfold ExtendResponsePageParser.parseStatusBlob
  simp only [h1, h2, h4]
  simp

/-- Witness for `statusBlob_fout_forces_failure` at the repository's own
"Foutmelding" test blob. -/
theorem statusBlob_fout_forces_failure_witness :
    ExtendResponsePageParser.parseStatusBlob Fixtures.foutBlobDoc = .ok ⟨false, 0, []⟩ :=
  statusBlob_fout_forces_failure Fixtures.foutBlobDoc Fixtures.foutUl Fixtures.foutLi0
    [Fixtures.foutLi1] rfl rfl (by decide) (by decide)

/-! ### C9 — `get_loans` error wrapping -/

/-- C9 (counterexample): on a page whose parse raises (here: a `TypeError`
from a card without a cover image), `get_loans` raises an
`IncompatibleSourceError` whose `html_body` attribute is the EMPTY string —
not the raw response body of the page, which is non-empty. -/
theorem getLoans_html_body_counterexample :
    MijnBibliotheek.getLoans Fixtures.failingLoansRaw Fixtures.failingLoansDoc "https://x" =
        .error (.incompatibleSource
          "Problem scraping loans ('NoneType' object is not subscriptable)" "") ∧
      Fixtures.failingLoansRaw ≠ "" := by
  refine ⟨by decide, by decide⟩

/-- C9 (amended): whenever the loans extractor raises ANY exception while
`get_loans` is parsing a fetched loans page, `get_loans` wraps it — a
`TemporarySiteError` included, were one raised — into an
`IncompatibleSourceError` whose `html_body` attribute is the empty string;
the raw response body is not attached, and nothing passes through
unwrapped. -/
theorem getLoans_wraps_parser_errors (raw : String) (doc : Doc) (baseUrl : String) (e : PyErr)
    (h : MijnBibliotheek.parseAccountLoanPage baseUrl doc = .error e) :
    MijnBibliotheek.getLoans raw doc baseUrl =
      .error (.incompatibleSource ("Problem scraping loans (" ++ pyStr e ++ ")") "") := by
  unfold MijnBibliotheek.getLoans
  rw [h]

/-- Witness for `getLoans_wraps_parser_errors` at the failing page. -/
theorem getLoans_wraps_parser_errors_witness :
    MijnBibliotheek.getLoans Fixtures.failingLoansRaw Fixtures.failingLoansDoc "https://x" =
      .error (.incompatibleSource ("Problem scraping loans (" ++ pyStr .typeError ++ ")") "") :=
  getLoans_wraps_parser_errors Fixtures.failingLoansRaw Fixtures.failingLoansDoc "https://x"
    .typeError (by decide)

/-! ### C8 — the login short-circuit -/

/-- C8 (counterexample): when the initial GET of the login-entry URL answers
with a 302 redirect whose target carries NO query parameters, the login
engine does not short-circuit: the credential POST to the site login endpoint
is still issued. -/
theorem login_redirect_no_query_posts_anyway :
    parseQSL (queryOf Fixtures.noQueryLocation) = [] ∧
      (Fixtures.redirectNoQueryOracle 0).status = 302 ∧
      ((LoginByOAuth.logIn Fixtures.redirectNoQueryOracle "u" "p"
          "https://gent.bibliotheek.be/mijn-bibliotheek/aanmelden"
          "https://gent.bibliotheek.be").2.any Request.isPost) = true := by
  refine ⟨by decide, by decide, by decide⟩

/-- C8 (amended): the only short-circuit of `_log_in` happens when the initial
GET's response status is NOT 302 — regardless of the redirect target's query
parameters.  In that case no further request (in particular no credential
POST) is issued and `_log_in` returns the placeholder `True`; the `login`
wrapper then fails with `AttributeError` (`True.text`) instead of proceeding
to validation — the `# TODO: fix` shortcut of the source. -/
theorem login_short_circuit_on_non_redirect (oracle : Nat → HttpResponse)
    (username password url baseUrl : String) (h : (oracle 0).status ≠ 302) :
    LoginByOAuth.logIn oracle username password url baseUrl =
        (.ok .alreadyTrue, [.get url]) ∧
      LoginByOAuth.login oracle username password url baseUrl =
        (.error .attributeError, [.get url]) := by
  have hb : ((oracle 0).status != 302) = true := by
    simpa [bne_iff_ne] using h
  constructor
  · unfold LoginByOAuth.logIn
    rw [if_pos hb]
  · unfold LoginByOAuth.login
    unfold LoginByOAuth.logIn
    rw [if_pos hb]

/-! ### Helper lemmas about the loan-card walk (shared by several claims) -/

/-- Inversion for a successful `bind` in an `Except` do-block. -/
theorem exceptBindOkInv {ε α β : Type} {x : Except ε α} {f : α → Except ε β} {b : β}
    (h : (x >>= f) = .ok b) : ∃ a, x = .ok a ∧ f a = .ok b := by
  cases x with
  | error e => exact Except.noConfusion h
  | ok a => exact ⟨a, rfl, h⟩

/-- A successfully extracted loan card carries the branch name and account id
it was given, and its extend triple is exactly what `LoanDiv.extendOf`
produced. -/
theorem getLoanInfoFromDiv_ok {baseUrl accId branch : String} {div : Node} {l : Loan}
    (h : LoansListPageParser.getLoanInfoFromDiv baseUrl accId branch div = .ok l) :
    l.branchname = branch ∧ l.account_id = accId ∧
      LoanDiv.extendOf baseUrl div = .ok (l.extendable, l.extend_url, l.extend_id) := by
  unfold LoansListPageParser.getLoanInfoFromDiv at h
  obtain ⟨tui, h1, h⟩ := exceptBindOkInv h
  obtain ⟨cover, h2, h⟩ := exceptBindOkInv h
  obtain ⟨ft, h3, h⟩ := exceptBindOkInv h
  obtain ⟨trip, h4, h⟩ := exceptBindOkInv h
  obtain ⟨ext, exUrl, exId⟩ := trip
  simp only [pure, Except.pure, Except.ok.injEq] at h
  subst h
  exact ⟨rfl, rfl, h4⟩

/-- The extend triple of a card that is not positively extendable has empty
`extend_url` and the default `extend_id`. -/
theorem extendOf_not_true {baseUrl : String} {div : Node} {ext : Option Bool} {u : String}
    {i : Option String} (h : LoanDiv.extendOf baseUrl div = .ok (ext, u, i))
    (hne : ext ≠ some true) : u = "" ∧ i = some "" := by
  unfold LoanDiv.extendOf at h
  split at h
  · simp only [Except.ok.injEq, Prod.mk.injEq] at h
    exact ⟨h.2.1.symm, h.2.2.symm⟩
  · split at h
    · simp only [Except.ok.injEq, Prod.mk.injEq] at h
      exact ⟨h.2.1.symm, h.2.2.symm⟩
    · split at h
      · exact Except.noConfusion h
      · split at h
        · exact Except.noConfusion h
        · split at h
          · simp only [Except.ok.injEq, Prod.mk.injEq] at h
            exact ⟨h.2.1.symm, h.2.2.symm⟩
          · simp only [Except.ok.injEq, Prod.mk.injEq] at h
            exact absurd h.1.symm hne

/-- Every loan returned by the sibling walk was produced by
`getLoanInfoFromDiv` on some child with some branch name. -/
theorem mem_processChildren {baseUrl accId : String} :
    ∀ (cs : List Node) (branch : String) (loans : List Loan) (l : Loan),
      LoansListPageParser.processChildren baseUrl accId cs branch = .ok loans →
      l ∈ loans →
      ∃ c b, LoansListPageParser.getLoanInfoFromDiv baseUrl accId b c = .ok l := by
  intro cs
  induction cs with
  | nil =>
    intro branch loans l h hl
    unfold LoansListPageParser.processChildren at h
    simp only [Except.ok.injEq] at h
    subst h
    cases hl
  | cons c cs ih =>
    intro branch loans l h hl
    unfold LoansListPageParser.processChildren at h
    split at h
    · exact ih _ _ _ h hl
    · obtain ⟨lo, hg, h⟩ := exceptBindOkInv h
      obtain ⟨rest, hrest, h⟩ := exceptBindOkInv h
      simp only [pure, Except.pure, Except.ok.injEq] at h
      subst h
      rcases List.mem_cons.mp hl with hEq | hMem
      · subst hEq
        exact ⟨_, branch, hg⟩
      · exact ih _ _ _ hrest hMem
    · exact ih _ _ _ h hl

/-- The sibling walk over an `h2`-free prefix keeps the running branch name:
the loans of the prefix all carry it, and the remainder of the walk restarts
on the suffix with the same branch name. -/
theorem processChildren_no_h2_prefix {baseUrl accId : String} :
    ∀ (pre post : List Node) (b : String) (loans : List Loan),
      (∀ n ∈ pre, isTag "h2" n = false) →
      LoansListPageParser.processChildren baseUrl accId (pre ++ post) b = .ok loans →
      ∃ l1 l2, loans = l1 ++ l2 ∧
        LoansListPageParser.processChildren baseUrl accId post b = .ok l2 ∧
        (∀ l ∈ l1, l.branchname = b) := by
  intro pre
  induction pre with
  | nil =>
    intro post b loans _ h
    exact ⟨[], loans, rfl, h, by intro l hl; cases hl⟩
  | cons c cs ih =>
    intro post b loans hpre h
    have hc : isTag "h2" c = false := hpre c (List.mem_cons_self c cs)
    have hcs : ∀ n ∈ cs, isTag "h2" n = false := fun n hn => hpre n (List.mem_cons_of_mem c hn)
    rw [List.cons_append] at h
    unfold LoansListPageParser.processChildren at h
    split at h
    · simp [isTag] at hc
    · obtain ⟨lo, hg, h⟩ := exceptBindOkInv h
      obtain ⟨rest, hrest, h⟩ := exceptBindOkInv h
      simp only [pure, Except.pure, Except.ok.injEq] at h
      subst h
      obtain ⟨l1, l2, hsplit, hpost, hbr⟩ := ih post b rest hcs hrest
      refine ⟨lo :: l1, l2, by simp [hsplit], hpost, ?_⟩
      intro l hl
      rcases List.mem_cons.mp hl with hEq | hMem
      · subst hEq
        exact (getLoanInfoFromDiv_ok hg).1
      · exact hbr l hMem
    · exact ih post b loans hcs h

/-! ### C4 — the extendable/extend-fields invariant -/

/-- C4 (counterexample): a loan card whose extend-loan section has an action
link but an `<input>` without an `id` attribute is extracted with
`extendable=True` while `extend_id` is Python `None` — not a non-empty
string, refuting "extendable=True implies both extend_url and extend_id are
non-empty strings". -/
theorem extendable_true_with_none_extend_id :
    (LoansListPageParser.parse "https://x" "a" Fixtures.inputWithoutIdDoc).map
        (List.map (fun l => (l.extendable, l.extend_url, l.extend_id))) =
      .ok [(some true, "https://x/verlengen?loan-ids=1", none)] := by
  decide

/-- C4 (amended): for every `Loan` produced by the loans extractor,
`extendable` being `False` or unknown (`None`) implies that `extend_url` is
the empty string and `extend_id` its default empty string.  (The converse
direction of the claimed invariant fails: `extendable=True` does not
guarantee non-empty extend fields, see the counterexample.) -/
theorem extend_fields_empty_when_not_extendable (baseUrl accId : String) (doc : Doc)
    (loans : List Loan) (l : Loan)
    (h : LoansListPageParser.parse baseUrl accId doc = .ok loans)
    (hl : l ∈ loans) (hne : l.extendable ≠ some true) :
    l.extend_url = "" ∧ l.extend_id = some "" := by
  unfold LoansListPageParser.parse at h
  split at h
  · simp only [Except.ok.injEq] at h
    subst h
    cases hl
  · obtain ⟨c, b, hg⟩ := mem_processChildren _ _ _ _ h hl
    exact extendOf_not_true (getLoanInfoFromDiv_ok hg).2.2 hne

/-- Witness for `extend_fields_empty_when_not_extendable` at a card with no
extend-loan section (`extendable` unknown). -/
theorem extend_fields_empty_when_not_extendable_witness :
    LoansListPageParser.parse "b" "a" Fixtures.emptyH2Doc = .ok [Fixtures.bareLoan "" "a"] ∧
      (Fixtures.bareLoan "" "a").extendable ≠ some true ∧
      (Fixtures.bareLoan "" "a").extend_url = "" ∧
      (Fixtures.bareLoan "" "a").extend_id = some "" := by
  refine ⟨by decide, by decide, ?_⟩
  exact extend_fields_empty_when_not_extendable "b" "a" Fixtures.emptyH2Doc
    [Fixtures.bareLoan "" "a"] (Fixtures.bareLoan "" "a") (by decide)
    (List.mem_singleton.mpr rfl) (by decide)

/-! ### C10 — the "??" placeholder branch name -/

/-- C10 (counterexample): a branch header `<h2>` with empty text makes every
following loan card carry the empty branch name, so `branchname` is NOT
always a non-empty string for the loans the extractor returns. -/
theorem empty_h2_branchname_counterexample :
    (LoansListPageParser.parse "b" "a" Fixtures.emptyH2Doc).map (List.map Loan.branchname) =
      .ok [""] := by
  decide

/-- C10 (amended): every loan card that appears before the first `h2` branch
header is assigned the literal placeholder branch name `"??"` (the walk over
an `h2`-free prefix of the wrapper's children yields loans that all carry
`"??"`), and the walk continues on the suffix with the same running branch
name.  However, a later `h2` with empty text yields loans with an empty
`branchname`, so `branchname` is not always non-empty (see the
counterexample). -/
theorem loans_before_first_h2_placeholder (baseUrl accId : String) (doc : Doc) (w : Node)
    (pre post : List Node) (loans : List Loan)
    (hw : LoansListPageParser.findLoanWrapper doc = some w)
    (hsplit : w.elemChildren = pre ++ post)
    (hpre : ∀ n ∈ pre, isTag "h2" n = false)
    (h : LoansListPageParser.parse baseUrl accId doc = .ok loans) :
    ∃ l1 l2, loans = l1 ++ l2 ∧
      LoansListPageParser.processChildren baseUrl accId post "??" = .ok l2 ∧
      (∀ l ∈ l1, l.branchname = "??") := by
  have h' : LoansListPageParser.processChildren baseUrl accId (pre ++ post) "??" = .ok loans := by
    unfold LoansListPageParser.parse at h
    rw [hw] at h
    rw [← hsplit]
    exact h
  exact processChildren_no_h2_prefix pre post "??" loans hpre h'

/-- Witness for `loans_before_first_h2_placeholder` at a page with one card
before the first header. -/
theorem loans_before_first_h2_placeholder_witness :
    LoansListPageParser.parse "b" "a" Fixtures.cardBeforeH2Doc =
        .ok [Fixtures.bareLoan "??" "a", Fixtures.bareLoan "Hoofdbranch" "a"] ∧
      (∃ l1 l2,
        [Fixtures.bareLoan "??" "a", Fixtures.bareLoan "Hoofdbranch" "a"] = l1 ++ l2 ∧
          LoansListPageParser.processChildren "b" "a" [Fixtures.hoofdH2, Fixtures.bareCard] "??" =
            .ok l2 ∧
          (∀ l ∈ l1, l.branchname = "??")) := by
  refine ⟨by decide, ?_⟩
  refine loans_before_first_h2_placeholder "b" "a" Fixtures.cardBeforeH2Doc
    Fixtures.cardBeforeH2Wrapper [Fixtures.bareCard] [Fixtures.hoofdH2, Fixtures.bareCard]
    [Fixtures.bareLoan "??" "a", Fixtures.bareLoan "Hoofdbranch" "a"] rfl rfl ?_ (by decide)
  intro n hn
  rw [List.mem_singleton] at hn
  subst hn
  decide

/-- Witness for `login_short_circuit_on_non_redirect` at a 200-status
oracle. -/
theorem login_short_circuit_on_non_redirect_witness :
    LoginByOAuth.logIn (fun _ => ⟨200, [], "already in"⟩) "u" "p"
        "https://gent.bibliotheek.be/mijn-bibliotheek/aanmelden" "https://gent.bibliotheek.be" =
        (.ok .alreadyTrue, [.get "https://gent.bibliotheek.be/mijn-bibliotheek/aanmelden"]) ∧
      LoginByOAuth.login (fun _ => ⟨200, [], "already in"⟩) "u" "p"
        "https://gent.bibliotheek.be/mijn-bibliotheek/aanmelden" "https://gent.bibliotheek.be" =
        (.error .attributeError, [.get "https://gent.bibliotheek.be/mijn-bibliotheek/aanmelden"]) :=
  login_short_circuit_on_non_redirect (fun _ => ⟨200, [], "already in"⟩) "u" "p"
    "https://gent.bibliotheek.be/mijn-bibliotheek/aanmelden" "https://gent.bibliotheek.be"
    (by decide)

/-! ### C1 — the conditional fetches of `get_all_info` -/

/-- Inserting a fresh key appends it. -/
theorem dictInsert_fresh {v : Type} {m : List (String × v)} {k : String} (val : v)
    (h : k ∉ m.map Prod.fst) : dictInsert m k val = m ++ [(k, val)] := by
  have hany : m.any (fun p => p.1 == k) = false := by
    rw [Bool.eq_false_iff]
    intro hc
    rw [List.any_eq_true] at hc
    obtain ⟨p, hp, hpk⟩ := hc
    rw [beq_iff_eq] at hpk
    exact h (hpk ▸ List.mem_map_of_mem Prod.fst hp)
  unfold dictInsert
  rw [hany]
  simp

/-- `List.lookup` on a matching head. -/
theorem lookup_cons_self {v : Type} (k : String) (pv : v) (ps : List (String × v)) :
    List.lookup k ((k, pv) :: ps) = some pv := by
  simp [List.lookup]

/-- `List.lookup` skipping a non-matching head. -/
theorem lookup_cons_ne {v : Type} {j pk : String} (pv : v) (ps : List (String × v))
    (h : j ≠ pk) : List.lookup j ((pk, pv) :: ps) = List.lookup j ps := by
  have hb : (j == pk) = false := beq_eq_false_iff_ne.mpr h
  simp [List.lookup, hb]

/-- Looking up a freshly appended key. -/
theorem lookup_append_fresh {v : Type} :
    ∀ (m : List (String × v)) (k : String) (val : v), k ∉ m.map Prod.fst →
      List.lookup k (m ++ [(k, val)]) = some val := by
  intro m
  induction m with
  | nil => intro k val _; simp [List.lookup]
  | cons p ps ih =>
    intro k val h
    obtain ⟨pk, pv⟩ := p
    have hk : k ≠ pk := by
      intro hkk
      exact h (by rw [hkk]; exact List.mem_map_of_mem Prod.fst (List.mem_cons_self _ ps))
    rw [List.cons_append, lookup_cons_ne _ _ hk]
    exact ih k val (fun hc => h (List.mem_map.mpr
      (by obtain ⟨q, hq, hqe⟩ := List.mem_map.mp hc; exact ⟨q, List.mem_cons_of_mem _ hq, hqe⟩)))

/-- Updating key `k` does not change lookups of other keys. -/
theorem lookup_map_update_ne {v : Type} {j k : String} (val : v) (hjk : j ≠ k) :
    ∀ m : List (String × v),
      List.lookup j (m.map (fun p => if p.1 == k then (k, val) else p)) = List.lookup j m := by
  intro m
  induction m with
  | nil => rfl
  | cons p ps ih =>
    obtain ⟨pk, pv⟩ := p
    by_cases hpk : pk = k
    · subst hpk
      simp only [List.map_cons, beq_self_eq_true, if_true]
      rw [lookup_cons_ne _ _ hjk, lookup_cons_ne _ _ hjk]
      exact ih
    · have hb : ((pk, pv).1 == k) = false := beq_eq_false_iff_ne.mpr hpk
      simp only [List.map_cons, hb, Bool.false_eq_true, if_false]
      by_cases hj : j = pk
      · subst hj
        rw [lookup_cons_self, lookup_cons_self]
      · rw [lookup_cons_ne _ _ hj, lookup_cons_ne _ _ hj]
        exact ih

/-- Appending a binding for another key does not change a lookup. -/
theorem lookup_append_singleton_ne {v : Type} {j k : String} (val : v) (hjk : j ≠ k) :
    ∀ m : List (String × v), List.lookup j (m ++ [(k, val)]) = List.lookup j m := by
  intro m
  induction m with
  | nil =>
    rw [List.nil_append, lookup_cons_ne _ _ hjk]
  | cons p ps ih =>
    obtain ⟨pk, pv⟩ := p
    rw [List.cons_append]
    by_cases hj : j = pk
    · subst hj
      rw [lookup_cons_self, lookup_cons_self]
    · rw [lookup_cons_ne _ _ hj, lookup_cons_ne _ _ hj]
      exact ih

/-- `dictInsert` at `k` does not change lookups of other keys. -/
theorem lookup_dictInsert_ne {v : Type} {j k : String} (val : v) (hjk : j ≠ k)
    (m : List (String × v)) :
    List.lookup j (dictInsert m k val) = List.lookup j m := by
  unfold dictInsert
  split
  · exact lookup_map_update_ne val hjk m
  · exact lookup_append_singleton_ne val hjk m

/-- A key of `dictInsert m k val` is a key of `m` or `k` itself. -/
theorem mem_keys_dictInsert {v : Type} {j k : String} {val : v} {m : List (String × v)}
    (h : j ∈ (dictInsert m k val).map Prod.fst) : j ∈ m.map Prod.fst ∨ j = k := by
  unfold dictInsert at h
  split at h
  · obtain ⟨q, hq, hjq⟩ := List.mem_map.mp h
    obtain ⟨p, hp, hpq⟩ := List.mem_map.mp hq
    subst hpq
    by_cases hpk : p.1 = k
    · right
      simp only [hpk, beq_self_eq_true, if_true] at hjq
      exact hjq.symm
    · left
      have hb : (p.1 == k) = false := beq_eq_false_iff_ne.mpr hpk
      simp only [hb, Bool.false_eq_true, if_false] at hjq
      exact hjq ▸ List.mem_map_of_mem Prod.fst hp
  · rw [List.map_append] at h
    rcases List.mem_append.mp h with h1 | h2
    · exact Or.inl h1
    · right
      simpa using h2

/-- Characterisation of one conditional fetch of the `get_all_info` loop. -/
theorem fetch_if_char {γ : Type} {cond : Bool} {g : Except PyErr (List γ)} {ev : FetchEv}
    {ls : List γ} {ev1 : List FetchEv}
    (h : (if cond then g.map (fun v => (v, [ev])) else .ok ([], [])) = .ok (ls, ev1)) :
    (cond = false ∧ ls = [] ∧ ev1 = []) ∨ (cond = true ∧ g = .ok ls ∧ ev1 = [ev]) := by
  cases cond with
  | false =>
    simp only [Bool.false_eq_true, if_false, Except.ok.injEq, Prod.mk.injEq] at h
    exact Or.inl ⟨rfl, h.1.symm, h.2.symm⟩
  | true =>
    cases g with
    | error e => simp [Except.map] at h
    | ok v =>
      simp only [if_true, Except.map, Except.ok.injEq, Prod.mk.injEq] at h
      exact Or.inr ⟨rfl, by rw [h.1], h.2.symm⟩

/-- The trace grows monotonically, and every new event refers to one of the
processed accounts. -/
theorem getAllInfoAux_trace {α β : Type} {gl : String → Except PyErr (List α)}
    {gh : String → Except PyErr (List β)} :
    ∀ (accounts : List Account) (m : List (String × AllInfoEntry α β)) (tr : List FetchEv)
      (out : List (String × AllInfoEntry α β) × List FetchEv),
      MijnBibliotheek.getAllInfoAux gl gh accounts m tr = .ok out →
      ∃ ext, out.2 = tr ++ ext ∧ ∀ ev ∈ ext, FetchEv.accId ev ∈ accounts.map Account.id := by
  intro accounts
  induction accounts with
  | nil =>
    intro m tr out h
    unfold MijnBibliotheek.getAllInfoAux at h
    simp only [Except.ok.injEq] at h
    subst h
    exact ⟨[], by simp, by intro ev hev; cases hev⟩
  | cons b rest ih =>
    intro m tr out h
    unfold MijnBibliotheek.getAllInfoAux at h
    split at h
    · exact Except.noConfusion h
    · rename_i ls ev1 heq1
      split at h
      · exact Except.noConfusion h
      · rename_i hs ev2 heq2
        obtain ⟨ext', hext', hmem'⟩ := ih _ _ _ h
        refine ⟨ev1 ++ ev2 ++ ext', by rw [hext']; simp, ?_⟩
        intro ev hev
        have hid1 : ev ∈ ev1 → FetchEv.accId ev = b.id := by
          intro hin
          rcases fetch_if_char heq1 with ⟨_, _, he⟩ | ⟨_, _, he⟩ <;> subst he
          · cases hin
          · rw [List.mem_singleton.mp hin]
            rfl
        have hid2 : ev ∈ ev2 → FetchEv.accId ev = b.id := by
          intro hin
          rcases fetch_if_char heq2 with ⟨_, _, he⟩ | ⟨_, _, he⟩ <;> subst he
          · cases hin
          · rw [List.mem_singleton.mp hin]
            rfl
        rcases List.mem_append.mp hev with hev' | hext
        · rcases List.mem_append.mp hev' with h1 | h2
          · exact (hid1 h1) ▸ List.mem_cons_self _ _
          · exact (hid2 h2) ▸ List.mem_cons_self _ _
        · exact List.mem_cons_of_mem _ (hmem' ev hext)

/-- Accounts not in the remaining list do not affect their dict entries. -/
theorem getAllInfoAux_lookup_preserved {α β : Type} {gl : String → Except PyErr (List α)}
    {gh : String → Except PyErr (List β)} :
    ∀ (accounts : List Account) (m : List (String × AllInfoEntry α β)) (tr : List FetchEv)
      (out : List (String × AllInfoEntry α β) × List FetchEv),
      MijnBibliotheek.getAllInfoAux gl gh accounts m tr = .ok out →
      ∀ k, k ∉ accounts.map Account.id → List.lookup k out.1 = List.lookup k m := by
  intro accounts
  induction accounts with
  | nil =>
    intro m tr out h k _
    unfold MijnBibliotheek.getAllInfoAux at h
    simp only [Except.ok.injEq] at h
    subst h
    rfl
  | cons b rest ih =>
    intro m tr out h k hk
    unfold MijnBibliotheek.getAllInfoAux at h
    split at h
    · exact Except.noConfusion h
    · split at h
      · exact Except.noConfusion h
      · have hkb : k ≠ b.id := fun hc => hk (hc ▸ List.mem_cons_self _ _)
        have hkrest : k ∉ rest.map Account.id := fun hc => hk (List.mem_cons_of_mem _ hc)
        rw [ih _ _ _ h k hkrest]
        exact lookup_dictInsert_ne _ hkb m

/-- C1 (amended): for every account processed by `get_all_info` (account ids
assumed distinct, as they are on the real site), the loans fetch is issued if
and only if `loans_count ≠ 0` in Python's sense — i.e. also when the count is
*unknown* (`None`); only a confirmed count of `0` skips the fetch and records
an empty list for that account, and likewise for reservations.  (The original
claim — that an unknown count also skips the fetch — is refuted by
`getAllInfo_unknown_count_counterexample`.) -/
theorem getAllInfo_fetch_condition {α β : Type} (accounts : List Account)
    (gl : String → Except PyErr (List α)) (gh : String → Except PyErr (List β))
    (m : List (String × AllInfoEntry α β)) (tr : List FetchEv) (a : Account)
    (h : MijnBibliotheek.getAllInfo accounts gl gh = .ok (m, tr))
    (hnd : (accounts.map Account.id).Nodup) (ha : a ∈ accounts) :
    ∃ e, List.lookup a.id m = some e ∧ e.account_details = a ∧
      (a.loans_count = some 0 → e.loans = [] ∧ FetchEv.loans a.id ∉ tr) ∧
      (a.loans_count ≠ some 0 → gl a.id = .ok e.loans ∧ FetchEv.loans a.id ∈ tr) ∧
      (a.reservations_count = some 0 → e.reservations = [] ∧ FetchEv.holds a.id ∉ tr) ∧
      (a.reservations_count ≠ some 0 → gh a.id = .ok e.reservations ∧ FetchEv.holds a.id ∈ tr) := by
  unfold MijnBibliotheek.getAllInfo at h
  suffices hgen :
      ∀ (accounts : List Account) (m0 : List (String × AllInfoEntry α β)) (tr0 : List FetchEv),
        MijnBibliotheek.getAllInfoAux gl gh accounts m0 tr0 = .ok (m, tr) →
        (accounts.map Account.id).Nodup → a ∈ accounts →
        a.id ∉ m0.map Prod.fst →
        FetchEv.loans a.id ∉ tr0 → FetchEv.holds a.id ∉ tr0 →
        ∃ e, List.lookup a.id m = some e ∧ e.account_details = a ∧
          (a.loans_count = some 0 → e.loans = [] ∧ FetchEv.loans a.id ∉ tr) ∧
          (a.loans_count ≠ some 0 → gl a.id = .ok e.loans ∧ FetchEv.loans a.id ∈ tr) ∧
          (a.reservations_count = some 0 → e.reservations = [] ∧ FetchEv.holds a.id ∉ tr) ∧
          (a.reservations_count ≠ some 0 → gh a.id = .ok e.reservations ∧ FetchEv.holds a.id ∈ tr) by
    exact hgen accounts [] [] h hnd ha (by simp) (by simp) (by simp)
  clear h hnd ha
  intro accounts
  induction accounts with
  | nil =>
    intro m0 tr0 _ _ ha
    cases ha
  | cons b rest ih =>
    intro m0 tr0 h hnd ha hfresh hltr hhtr
    have hbrest : b.id ∉ rest.map Account.id := by
      rw [List.map_cons, List.nodup_cons] at hnd
      exact hnd.1
    have hndrest : (rest.map Account.id).Nodup := by
      rw [List.map_cons, List.nodup_cons] at hnd
      exact hnd.2
    unfold MijnBibliotheek.getAllInfoAux at h
    split at h
    · exact Except.noConfusion h
    · rename_i ls ev1 heq1
      split at h
      · exact Except.noConfusion h
      · rename_i hs ev2 heq2
        have hdict := dictInsert_fresh (m := m0) (k := b.id)
        rcases List.mem_cons.mp ha with haEq | haMem
        · -- the head account is `a`
          subst haEq
          obtain ⟨ext, hext, hextmem⟩ := getAllInfoAux_trace rest _ _ _ h
          dsimp only at hext
          have hnotext : FetchEv.loans a.id ∉ ext ∧ FetchEv.holds a.id ∉ ext := by
            constructor <;>
              (intro hc; exact hbrest (by simpa using hextmem _ hc))
          have hlook : List.lookup a.id (m, tr).1 =
              List.lookup a.id (dictInsert m0 a.id ⟨a, ls, hs⟩) :=
            getAllInfoAux_lookup_preserved rest _ _ _ h a.id hbrest
          rw [hdict ⟨a, ls, hs⟩ hfresh, lookup_append_fresh m0 a.id _ hfresh] at hlook
          refine ⟨⟨a, ls, hs⟩, hlook, rfl, ?_, ?_, ?_, ?_⟩
          · intro h0
            rcases fetch_if_char heq1 with ⟨_, hls, hev⟩ | ⟨hcond, _, _⟩
            · subst hls hev
              refine ⟨rfl, ?_⟩
              rw [hext]
              intro hc
              simp only [List.mem_append] at hc
              rcases hc with ((hc | hc) | hc) | hc
              · exact hltr hc
              · cases hc
              · rcases fetch_if_char heq2 with ⟨_, _, hev2⟩ | ⟨_, _, hev2⟩ <;> subst hev2
                · cases hc
                · cases List.mem_singleton.mp hc
              · exact hnotext.1 hc
            · rw [h0] at hcond
              simp at hcond
          · intro h0
            rcases fetch_if_char heq1 with ⟨hcond, _, _⟩ | ⟨_, hgl, hev⟩
            · rw [bne_eq_false_iff_eq] at hcond
              exact absurd hcond h0
            · subst hev
              refine ⟨hgl, ?_⟩
              rw [hext]
              simp
          · intro h0
            rcases fetch_if_char heq2 with ⟨_, hhs, hev⟩ | ⟨hcond, _, _⟩
            · subst hhs hev
              refine ⟨rfl, ?_⟩
              rw [hext]
              intro hc
              simp only [List.mem_append] at hc
              rcases hc with ((hc | hc) | hc) | hc
              · exact hhtr hc
              · rcases fetch_if_char heq1 with ⟨_, _, hev1⟩ | ⟨_, _, hev1⟩ <;> subst hev1
                · cases hc
                · cases List.mem_singleton.mp hc
              · cases hc
              · exact hnotext.2 hc
            · rw [h0] at hcond
              simp at hcond
          · intro h0
            rcases fetch_if_char heq2 with ⟨hcond, _, _⟩ | ⟨_, hgh, hev⟩
            · rw [bne_eq_false_iff_eq] at hcond
              exact absurd hcond h0
            · subst hev
              refine ⟨hgh, ?_⟩
              rw [hext]
              simp
        · -- `a` is further down the list
          have haid : a.id ∈ rest.map Account.id := List.mem_map_of_mem Account.id haMem
          have hane : a.id ≠ b.id := fun hc => hbrest (hc ▸ haid)
          refine ih _ _ h hndrest haMem ?_ ?_ ?_
          · intro hc
            rcases mem_keys_dictInsert hc with hin | hkb
            · exact hfresh hin
            · exact hane hkb
          · intro hc
            rcases List.mem_append.mp hc with hc1 | hc2
            · rcases List.mem_append.mp hc1 with hc3 | hc4
              · exact hltr hc3
              · rcases fetch_if_char heq1 with ⟨_, _, hev⟩ | ⟨_, _, hev⟩ <;> subst hev
                · cases hc4
                · exact hane (by simpa using List.mem_singleton.mp hc4)
            · rcases fetch_if_char heq2 with ⟨_, _, hev⟩ | ⟨_, _, hev⟩ <;> subst hev
              · cases hc2
              · cases List.mem_singleton.mp hc2
          · intro hc
            rcases List.mem_append.mp hc with hc1 | hc2
            · rcases List.mem_append.mp hc1 with hc3 | hc4
              · exact hhtr hc3
              · rcases fetch_if_char heq1 with ⟨_, _, hev⟩ | ⟨_, _, hev⟩ <;> subst hev
                · cases hc4
                · cases List.mem_singleton.mp hc4
            · rcases fetch_if_char heq2 with ⟨_, _, hev⟩ | ⟨_, _, hev⟩ <;> subst hev
              · cases hc2
              · exact hane (by simpa using List.mem_singleton.mp hc2)

/-- C1 (counterexample): for an account whose `loans_count` is unknown
(`None`), `get_all_info` does NOT skip the loans fetch: the fetch is issued
(`None != 0` is `True` in Python) and its non-empty result — not an empty
list — is recorded in the mapping under the account id. -/
theorem getAllInfo_unknown_count_counterexample :
    Fixtures.unknownCountAccount.loans_count = none ∧
      MijnBibliotheek.getAllInfo [Fixtures.unknownCountAccount] Fixtures.oneLoanFetch
          Fixtures.noHoldsFetch =
        .ok ([("374047", ⟨Fixtures.unknownCountAccount, [{ title := "Erebus" }], []⟩)],
          [.loans "374047"]) := by
  exact ⟨rfl, by decide⟩

/-- Witness for `getAllInfo_fetch_condition` at a one-account list with an
unknown loans count and a confirmed-zero reservations count. -/
theorem getAllInfo_fetch_condition_witness :
    MijnBibliotheek.getAllInfo [Fixtures.unknownCountAccount] Fixtures.oneLoanFetch
        Fixtures.noHoldsFetch =
      .ok ([("374047", ⟨Fixtures.unknownCountAccount, [{ title := "Erebus" }], []⟩)],
        [.loans "374047"]) ∧
    (∃ e,
      List.lookup Fixtures.unknownCountAccount.id
          [("374047", (⟨Fixtures.unknownCountAccount, [{ title := "Erebus" }],
            []⟩ : AllInfoEntry LoanOld Reservation))] = some e ∧
        e.account_details = Fixtures.unknownCountAccount ∧
        (Fixtures.unknownCountAccount.loans_count = some 0 →
          e.loans = [] ∧ FetchEv.loans Fixtures.unknownCountAccount.id ∉ [FetchEv.loans "374047"]) ∧
        (Fixtures.unknownCountAccount.loans_count ≠ some 0 →
          Fixtures.oneLoanFetch Fixtures.unknownCountAccount.id = .ok e.loans ∧
            FetchEv.loans Fixtures.unknownCountAccount.id ∈ [FetchEv.loans "374047"]) ∧
        (Fixtures.unknownCountAccount.reservations_count = some 0 →
          e.reservations = [] ∧
            FetchEv.holds Fixtures.unknownCountAccount.id ∉ [FetchEv.loans "374047"]) ∧
        (Fixtures.unknownCountAccount.reservations_count ≠ some 0 →
          Fixtures.noHoldsFetch Fixtures.unknownCountAccount.id = .ok e.reservations ∧
            FetchEv.holds Fixtures.unknownCountAccount.id ∈ [FetchEv.loans "374047"])) := by
  refine ⟨by decide, ?_⟩
  exact getAllInfo_fetch_condition [Fixtures.unknownCountAccount] Fixtures.oneLoanFetch
    Fixtures.noHoldsFetch _ _ Fixtures.unknownCountAccount (by decide) (by decide)
    (List.mem_singleton.mpr rfl)

end Mijnbib
